import Mathlib

/-!
# TopoGen: `PopulationDensityFilter`

A shallow embedding of `src/topo/base_topo/PopulationDensityFilter.cpp`.

Modelling conventions.

* A C++ `double` is a rational number (`ℚ`) with exact arithmetic; rounding,
  infinities and NaN are outside the model.  Every division of the geometry
  kernel is guarded in the source by a test that makes its divisor non-zero.
* `std::vector<T>` is `List T`; `v[i]`, `v.back()` and `v.front()` are partial
  (`Option`): an access outside the vector is undefined behaviour in C++ and is
  `none` here.  `size_t` arithmetic is taken modulo `2 ^ 64`.
* A function that can meet undefined behaviour (or, with assertions compiled
  in, a failing `assert`) returns an `Option`; `none` means that the run has no
  defined result.
* `boost::property_tree::ptree` is a tree whose nodes hold a string and a sequence
  of children with their keys; `read_json` and `std::stod` are parameters, and
  an exception they or `get_child` throw is the value `none`.
* A `for` loop is a recursive function that carries the loop variables, tests
  the loop condition explicitly, and takes a step budget as its first argument,
  which the caller sets to one more than the largest number of iterations.
-/

namespace TopoGen

/-! ## Data model -/

/-- The struct `Polygon` of `PopulationDensityFilter.hpp`: a vector of rings, a
ring being a vector of `std::pair<double, double>` with `first` the longitude
and `second` the latitude. -/
structure Polygon where
  coordinates : List (List (ℚ × ℚ))
deriving DecidableEq

/-- The class `GeographicPosition` of `geo/GeographicPosition.hpp`, constructed as
`GeographicPosition(lat, lon)` and read through `lat()` and `lon()`. -/
structure GeographicPosition where
  lat : ℚ
  lon : ℚ
deriving DecidableEq

/-- The modulus of `size_t` arithmetic. -/
def SIZE_MOD : Nat := 2 ^ 64

/-- The value of `v.size() - 1` computed in `size_t`: it wraps to `2 ^ 64 - 1` for an
empty vector.  The size of a vector is below `2 ^ 64`, where this is
`(v.size() + 2 ^ 64 - 1) % 2 ^ 64` (`sizeMinusOne_eq_mod`). -/
def sizeMinusOne {α : Type} (v : List α) : Nat :=
  if v.length = 0 then SIZE_MOD - 1 else v.length - 1

/-! ## Geometry kernel -/

/-- The condition of the `if` in the body of the loop of `isPointInPolygon`, for
`pi = polygon[i]` and `pj = polygon[j]`.  The second conjunct is evaluated only
when the first holds (`&&`). -/
def edgeToggles (point pi pj : ℚ × ℚ) : Bool :=
  (decide (pi.2 > point.2) != decide (pj.2 > point.2)) &&
    decide (point.1 < (pj.1 - pi.1) * (point.2 - pi.2) / (pj.2 - pi.2) + pi.1)

/-- The loop `for (size_t i = 0, j = polygon.size() - 1; i < polygon.size(); j = i++)`
of `isPointInPolygon`, from the state `(i, j, inside)`. -/
def isPointInPolygonLoop (point : ℚ × ℚ) (polygon : List (ℚ × ℚ)) :
    Nat → Nat → Nat → Bool → Option Bool
  | 0, _, _, _ => none
  | fuel + 1, i, j, inside =>
    if i < polygon.length then
      match polygon[i]?, polygon[j]? with
      | some pi, some pj =>
        isPointInPolygonLoop point polygon fuel (i + 1) i
          (if edgeToggles point pi pj then !inside else inside)
      | _, _ => none
    else some inside

/-- The function `PopulationDensityFilter::isPointInPolygon`. -/
def isPointInPolygon (point : ℚ × ℚ) (polygon : List (ℚ × ℚ)) : Option Bool :=
  isPointInPolygonLoop point polygon (polygon.length + 1) 0 (sizeMinusOne polygon) false

/-- The function `PopulationDensityFilter::doLineSegmentsIntersect`. -/
def doLineSegmentsIntersect (x1 y1 x2 y2 x3 y3 x4 y4 : ℚ) : Bool :=
  let denom := (y4 - y3) * (x2 - x1) - (x4 - x3) * (y2 - y1)
  if |denom| < 1 / 100000000 then false
  else
    let ua := ((x4 - x3) * (y1 - y3) - (y4 - y3) * (x1 - x3)) / denom
    let ub := ((x2 - x1) * (y1 - y3) - (y2 - y1) * (x1 - x3)) / denom
    decide (ua ≥ 0) && decide (ua ≤ 1) && decide (ub ≥ 0) && decide (ub ≤ 1)

/-! ## Exclusion-region store -/

/-- The inner loop `for (size_t i = 0; i < ring.size() - 1; i++)` of
`intersectsAnyPolygon`, from the state `i`: `some true` when the loop returns
`true` from the function, `some false` when it runs to its end. -/
def ringEdgeLoop (p1 p2 : GeographicPosition) (ring : List (ℚ × ℚ)) :
    Nat → Nat → Option Bool
  | 0, _ => none
  | fuel + 1, i =>
    if i < sizeMinusOne ring then
      match ring[i]?, ring[i + 1]? with
      | some a, some b =>
        if doLineSegmentsIntersect p1.lon p1.lat p2.lon p2.lat a.1 a.2 b.1 b.2 then some true
        else ringEdgeLoop p1 p2 ring fuel (i + 1)
      | _, _ => none
    else some false

/-- The body of the loop over the rings of a polygon in `intersectsAnyPolygon`:
`some true` when the body returns `true` from the function, `some false` when
it falls through to the next ring. -/
def ringCheck (p1 p2 : GeographicPosition) (ring : List (ℚ × ℚ)) : Option Bool :=
  match ringEdgeLoop p1 p2 ring (sizeMinusOne ring + 1) 0 with
  | none => none
  | some true => some true
  | some false =>
    match ring.getLast?, ring.head? with
    | some b, some f =>
      if doLineSegmentsIntersect p1.lon p1.lat p2.lon p2.lat b.1 b.2 f.1 f.2 then some true
      else
        let midpoint : ℚ × ℚ := ((p1.lon + p2.lon) / 2, (p1.lat + p2.lat) / 2)
        match isPointInPolygon midpoint ring with
        | none => none
        | some true => some true
        | some false => some false
    | _, _ => none

/-- The loop `for (const auto& ring : polygon.coordinates)` of `intersectsAnyPolygon`. -/
def ringsLoop (p1 p2 : GeographicPosition) : List (List (ℚ × ℚ)) → Option Bool
  | [] => some false
  | ring :: rest =>
    match ringCheck p1 p2 ring with
    | none => none
    | some true => some true
    | some false => ringsLoop p1 p2 rest

/-- The loop `for (const auto& polygon : _polygons)` of `intersectsAnyPolygon`. -/
def polygonsLoop (p1 p2 : GeographicPosition) : List Polygon → Option Bool
  | [] => some false
  | polygon :: rest =>
    match ringsLoop p1 p2 polygon.coordinates with
    | none => none
    | some true => some true
    | some false => polygonsLoop p1 p2 rest

/-- The function `PopulationDensityFilter::intersectsAnyPolygon`; the member
`_polygons` is the first argument. -/
def intersectsAnyPolygon (polygons : List Polygon) (p1 p2 : GeographicPosition) : Option Bool :=
  polygonsLoop p1 p2 polygons

/-! ## Loading the exclusion regions -/

/-- The class `boost::property_tree::ptree` as far as the loader uses it: a node
holds a string and a sequence of children with their keys, in document order. -/
inductive PTree where
  | mk (data : String) (children : List (String × PTree))

/-- The member `ptree::data()`. -/
def PTree.data : PTree → String
  | .mk d _ => d

/-- The children of a node, which a range-based `for` over the node visits in order. -/
def PTree.children : PTree → List (String × PTree)
  | .mk _ c => c

/-- The member `ptree::get_child(key)` for a key without a separator: the first
child with that key; `none` stands for the exception `ptree_bad_path`. -/
def PTree.get_child (t : PTree) (key : String) : Option PTree :=
  match t.children.find? (fun kv => kv.1 = key) with
  | some kv => some kv.2
  | none => none

/-- The loop `for (const auto& coord : coordArray.second)` of `loadPolygonsFromJSON`
over the components still to read and the value of `coords`; `stod s` is `none`
when `std::stod` throws for `s`, and the result is `none` when the loop is left
by that exception. -/
def coordsLoop (stod : String → Option ℚ) : List (String × PTree) → List ℚ → Option (List ℚ)
  | [], coords => some coords
  | coord :: rest, coords =>
    match stod coord.2.data with
    | none => none
    | some x => coordsLoop stod rest (coords ++ [x])

/-- The loop `for (const auto& coordArray : ringArray.second)` of
`loadPolygonsFromJSON` over the entries still to read and the value of `ring`.
An exception of `std::stod` is caught and the loop continues; `coords` is
pushed as the pair `{coords[0], coords[1]}` when `coords.size() == 2`. -/
def coordArrayLoop (stod : String → Option ℚ) :
    List (String × PTree) → List (ℚ × ℚ) → List (ℚ × ℚ)
  | [], ring => ring
  | coordArray :: rest, ring =>
    match coordsLoop stod coordArray.2.children [] with
    | none => coordArrayLoop stod rest ring
    | some [c0, c1] => coordArrayLoop stod rest (ring ++ [(c0, c1)])
    | some _ => coordArrayLoop stod rest ring

/-- The loop `for (const auto& ringArray : polyArray.second)` of
`loadPolygonsFromJSON` over the rings still to read and the value of `polygon`. -/
def ringArrayLoop (stod : String → Option ℚ) : List (String × PTree) → Polygon → Polygon
  | [], polygon => polygon
  | ringArray :: rest, polygon =>
    let ring := coordArrayLoop stod ringArray.2.children []
    if ring ≠ [] then ringArrayLoop stod rest ⟨polygon.coordinates ++ [ring]⟩
    else ringArrayLoop stod rest polygon

/-- The loop `for (const auto& polyArray : geometry.get_child("coordinates"))` of
`loadPolygonsFromJSON` over the children still to read and the value of `polygon`. -/
def polyArrayLoop (stod : String → Option ℚ) : List (String × PTree) → Polygon → Polygon
  | [], polygon => polygon
  | polyArray :: rest, polygon =>
    polyArrayLoop stod rest (ringArrayLoop stod polyArray.2.children polygon)

/-- The body of the loop over the features in `loadPolygonsFromJSON`: the value of
`_polygons` after the body.  A `ptree_error` thrown by `get_child` or by
`get<std::string>` is caught and leaves `_polygons` as it was. -/
def featureBody (stod : String → Option ℚ) (feature : String × PTree)
    (_polygons : List Polygon) : List Polygon :=
  match feature.2.get_child "geometry" with
  | none => _polygons
  | some geometry =>
    match geometry.get_child "type" with
    | none => _polygons
    | some geomType =>
      if geomType.data = "MultiPolygon" then
        match geometry.get_child "coordinates" with
        | none => _polygons
        | some coordinates =>
          let polygon := polyArrayLoop stod coordinates.children ⟨[]⟩
          if polygon.coordinates ≠ [] then _polygons ++ [polygon] else _polygons
      else _polygons

/-- The loop `for (const auto& feature : root.get_child("features"))` of
`loadPolygonsFromJSON` over the features still to read and the value of `_polygons`. -/
def featureLoop (stod : String → Option ℚ) : List (String × PTree) → List Polygon → List Polygon
  | [], _polygons => _polygons
  | feature :: rest, _polygons => featureLoop stod rest (featureBody stod feature _polygons)

/-- The outcome of a call of `loadPolygonsFromJSON`: whether the call is left by
an exception, and the member `_polygons` after the call. -/
structure LoadResult where
  thrown : Bool
  _polygons : List Polygon

/-- The function `PopulationDensityFilter::loadPolygonsFromJSON`, from the value
of `_polygons` before the call.  `read_json filename` is the tree that
`boost::property_tree::read_json` builds, `none` when it throws. -/
def loadPolygonsFromJSON (read_json : String → Option PTree) (stod : String → Option ℚ)
    (_polygons : List Polygon) (filename : String) : LoadResult :=
  match read_json filename with
  | none => ⟨true, _polygons⟩
  | some root =>
    match root.get_child "features" with
    | none => ⟨true, _polygons⟩
    | some features => ⟨false, featureLoop stod features.children _polygons⟩

/-! ## Collaborators and the filter object -/

/-- A node of the class hierarchy under `GeographicNode` as far as the filter reads
it: the position, the outcome of the two `dynamic_cast`s that the filter
performs, and `CityNode::country()`, which is read only for a city node. -/
structure GeographicNode where
  lat : ℚ
  lon : ℚ
  isCityNode : Bool
  isSeaCableLandingPoint : Bool
  country : String
deriving DecidableEq

/-- The record `PopulatedPosition` that `SQLiteAreaPopulationReader::getNext` returns. -/
structure PopulatedPosition where
  _lat : ℚ
  _lon : ℚ
  _population : ℚ
  _country : String
deriving DecidableEq

/-- The graph `lemon::ListGraph` as far as the filter uses it: an edge is its
identifier, `edges` lists the edges in the order of `ListGraph::EdgeIt`, `u`
and `v` give the end nodes of an edge, and `nodes` lists the nodes. -/
structure Graph where
  edges : List Nat
  u : Nat → Nat
  v : Nat → Nat
  nodes : List Nat

/-- The call `graph.erase(edge)` for an edge: the edge leaves the graph, the
nodes and the other edges stay as they are. -/
def Graph.erase (graph : Graph) (edge : Nat) : Graph :=
  ⟨graph.edges.filter (fun e => e ≠ edge), graph.u, graph.v, graph.nodes⟩

/-- The object behind `BaseTopology_Ptr`: `getGraph()` and `getNodeMap()`. -/
structure BaseTopology where
  getGraph : Graph
  getNodeMap : Nat → GeographicNode

/-- What the translation unit takes from headers that are not part of the
sources at hand (`geo/GeometricHelpers.hpp`, `util/Util.hpp`,
`db/InternetUsageStatistics.hpp`, `db/SQLiteAreaPopulationReader.hpp`,
`config/Config.hpp`, `<cmath>`) and from the build: every one is a parameter.
`areaReader db lat lon radius` is the finite sequence of records that a reader
constructed with these arguments hands out through `hasNext`/`getNext`;
`NDEBUG` tells whether `assert` is compiled out. -/
structure Collaborators where
  sphericalDist : GeographicPosition → GeographicPosition → ℚ
  sphericalDistToKM : ℚ → ℚ
  getMidPointCoordinates : GeographicPosition → GeographicPosition → ℚ × ℚ
  rad2deg : ℚ → ℚ
  hs : ℚ → ℚ
  ihs : ℚ → ℚ
  sin : ℚ → ℚ
  asin : ℚ → ℚ
  M_PI : ℚ
  inetStat : String → ℚ
  areaReader : String → ℚ → ℚ → ℚ → List PopulatedPosition
  config : String → ℚ
  NDEBUG : Bool

/-- The data members of the class `PopulationDensityFilter`. -/
structure PopulationDensityFilter where
  _dbFilename : String
  _baseTopo : BaseTopology
  _filterFlag : Int
  _polygons : List Polygon

/-- The lambda `isValidNode` of `filter` and of `filterByLength`. -/
def isValidNode (ptr : GeographicNode) : Bool :=
  ptr.isCityNode || ptr.isSeaCableLandingPoint

/-- The expression `_filterFlag == 1 && intersectsAnyPolygon(p1, p2)` of both
filters; `intersectsAnyPolygon` is called only when the flag is 1. -/
def exclusionCheck (self : PopulationDensityFilter) (p1 p2 : GeographicPosition) : Option Bool :=
  if self._filterFlag = 1 then intersectsAnyPolygon self._polygons p1 p2 else some false

/-! ## Density scoring: `filter` -/

/-- The loop `while (areaReader->hasNext() && accPopulation <= POPULATION_THRESHOLD)`
of `filter`, from the records the reader has left and the value of
`accPopulation`; the result is `accPopulation` at the exit of the loop. -/
def filterScanLoop (env : Collaborators) (MIN_LENGTH POPULATION_THRESHOLD BETA : ℚ)
    (p1 p2 midPointPos : GeographicPosition) (c c_km : ℚ) :
    List PopulatedPosition → ℚ → Option ℚ
  | [], accPopulation => some accPopulation
  | next :: rest, accPopulation =>
    if accPopulation ≤ POPULATION_THRESHOLD then
      if !env.NDEBUG && !decide (next._population ≥ 0) then none
      else if next._population = 0 then
        filterScanLoop env MIN_LENGTH POPULATION_THRESHOLD BETA p1 p2 midPointPos c c_km
          rest accPopulation
      else
        let toTest : GeographicPosition := ⟨next._lat, next._lon⟩
        let a := env.sphericalDist p1 toTest
        let b := env.sphericalDist p2 toTest
        let C := env.ihs ((env.hs c - env.hs (a - b)) / (env.sin a * env.sin b))
        let theta := env.M_PI - env.asin BETA
        if C < theta then
          filterScanLoop env MIN_LENGTH POPULATION_THRESHOLD BETA p1 p2 midPointPos c c_km
            rest accPopulation
        else
          let amountInetUsers := env.inetStat next._country / 100
          let popWeight := 1 - env.sphericalDist toTest midPointPos / (1 / 2 * c)
          filterScanLoop env MIN_LENGTH POPULATION_THRESHOLD BETA p1 p2 midPointPos c c_km
            rest (accPopulation +
              popWeight * next._population * amountInetUsers ^ 2 * (MIN_LENGTH / c_km) ^ 2)
    else some accPopulation

/-- The body of the loop over the edges in `filter`, for the edge `it`: `some true`
when the body pushes `it` onto `edges_to_delete`, `some false` when it does not. -/
def filterBody (env : Collaborators) (self : PopulationDensityFilter)
    (MIN_LENGTH POPULATION_THRESHOLD BETA : ℚ) (it : Nat) : Option Bool :=
  let graph := self._baseTopo.getGraph
  let nd1 := self._baseTopo.getNodeMap (graph.u it)
  let nd2 := self._baseTopo.getNodeMap (graph.v it)
  if isValidNode nd1 && isValidNode nd2 then
    let p1 : GeographicPosition := ⟨nd1.lat, nd1.lon⟩
    let p2 : GeographicPosition := ⟨nd2.lat, nd2.lon⟩
    match exclusionCheck self p1 p2 with
    | none => none
    | some true => some true
    | some false =>
      let c := env.sphericalDist p1 p2
      let c_km := env.sphericalDistToKM c
      if c_km < MIN_LENGTH then some false
      else
        let midPoint := env.getMidPointCoordinates p1 p2
        let midPointPos : GeographicPosition := ⟨midPoint.1, midPoint.2⟩
        let areaReader := env.areaReader self._dbFilename midPoint.1 midPoint.2 (env.rad2deg c)
        match filterScanLoop env MIN_LENGTH POPULATION_THRESHOLD BETA p1 p2 midPointPos c c_km
            areaReader 0 with
        | none => none
        | some accPopulation => some (decide (accPopulation ≤ POPULATION_THRESHOLD))
  else some false

/-- The loop `for (ListGraph::EdgeIt it(graph); it != INVALID; ++it)` of both
filters, over the edges still to visit and the value of `edges_to_delete`. -/
def edgeLoop (body : Nat → Option Bool) : List Nat → List Nat → Option (List Nat)
  | [], edges_to_delete => some edges_to_delete
  | it :: rest, edges_to_delete =>
    match body it with
    | none => none
    | some true => edgeLoop body rest (edges_to_delete ++ [it])
    | some false => edgeLoop body rest edges_to_delete

/-- The loop `for (EdgeList::iterator edge = ...) graph.erase(*edge)` of both filters. -/
def eraseLoop : List Nat → Graph → Graph
  | [], graph => graph
  | edge :: rest, graph => eraseLoop rest (graph.erase edge)

/-- The value of `edges_to_delete` after the traversal of `filter`. -/
def filterMarks (env : Collaborators) (self : PopulationDensityFilter) : Option (List Nat) :=
  let MIN_LENGTH := env.config "lengthFilter.minLength"
  let POPULATION_THRESHOLD := env.config "lengthFilter.populationThreshold"
  let BETA := env.config "lengthFilter.beta"
  edgeLoop (filterBody env self MIN_LENGTH POPULATION_THRESHOLD BETA)
    self._baseTopo.getGraph.edges []

/-- The function `PopulationDensityFilter::filter`: the graph it leaves behind. -/
def filter (env : Collaborators) (self : PopulationDensityFilter) : Option Graph :=
  match filterMarks env self with
  | none => none
  | some edges_to_delete => some (eraseLoop edges_to_delete self._baseTopo.getGraph)

/-! ## Length scoring: `filterByLength` -/

/-- The lambda `isCityNode` of `filterByLength`. -/
def isCityNode (ptr : GeographicNode) : Bool := ptr.isCityNode

/-- The end of the body of the loop of `filterByLength`, from
`assert(amountInetUsers < 1.0)` on. -/
def filterByLengthDecide (env : Collaborators) (MIN_LENGTH : ℚ) (p1 p2 : GeographicPosition)
    (amountInetUsers : ℚ) : Option Bool :=
  if !env.NDEBUG && !decide (amountInetUsers < 1) then none
  else
    let c := env.sphericalDist p1 p2
    let c_km := env.sphericalDistToKM c
    some (decide (c_km > MIN_LENGTH * (1 + amountInetUsers)))

/-- The body of the loop over the edges in `filterByLength`, for the edge `it`:
`some true` when the body pushes `it` onto `edges_to_delete`. -/
def filterByLengthBody (env : Collaborators) (self : PopulationDensityFilter)
    (MIN_LENGTH : ℚ) (it : Nat) : Option Bool :=
  let graph := self._baseTopo.getGraph
  let nd1 := self._baseTopo.getNodeMap (graph.u it)
  let nd2 := self._baseTopo.getNodeMap (graph.v it)
  if isValidNode nd1 && isValidNode nd2 then
    let p1 : GeographicPosition := ⟨nd1.lat, nd1.lon⟩
    let p2 : GeographicPosition := ⟨nd2.lat, nd2.lon⟩
    match exclusionCheck self p1 p2 with
    | none => none
    | some true => some true
    | some false =>
      if isCityNode nd1 && isCityNode nd2 then
        filterByLengthDecide env MIN_LENGTH p1 p2
          ((0 + env.inetStat nd1.country / 100 + env.inetStat nd2.country / 100) / 2)
      else if isCityNode nd1 then
        filterByLengthDecide env MIN_LENGTH p1 p2 (0 + env.inetStat nd1.country / 100)
      else if isCityNode nd2 then
        filterByLengthDecide env MIN_LENGTH p1 p2 (0 + env.inetStat nd2.country / 100)
      else some false
  else some false

/-- The value of `edges_to_delete` after the traversal of `filterByLength`. -/
def filterByLengthMarks (env : Collaborators) (self : PopulationDensityFilter) :
    Option (List Nat) :=
  let MIN_LENGTH := env.config "lengthFilter.minLength"
  edgeLoop (filterByLengthBody env self MIN_LENGTH) self._baseTopo.getGraph.edges []

/-- The function `PopulationDensityFilter::filterByLength`: the graph it leaves behind. -/
def filterByLength (env : Collaborators) (self : PopulationDensityFilter) : Option Graph :=
  match filterByLengthMarks env self with
  | none => none
  | some edges_to_delete => some (eraseLoop edges_to_delete self._baseTopo.getGraph)

/-! ## Reference definitions -/

/-- The crossing count of `isPointInPolygon` as a walk along the ring: `prev` is
the vertex before the first vertex of the list. -/
def toggleWalk (point : ℚ × ℚ) : ℚ × ℚ → List (ℚ × ℚ) → Bool → Bool
  | _, [], inside => inside
  | prev, p :: rest, inside =>
    toggleWalk point p rest (if edgeToggles point p prev then !inside else inside)

/-- The segment `p1`-`p2` meets the ring edge from `ring[k]` to `ring[k + 1]`
according to `doLineSegmentsIntersect`. -/
def EdgeHit (p1 p2 : GeographicPosition) (ring : List (ℚ × ℚ)) (k : Nat) : Prop :=
  ∃ a b, ring[k]? = some a ∧ ring[k + 1]? = some b ∧
    doLineSegmentsIntersect p1.lon p1.lat p2.lon p2.lat a.1 a.2 b.1 b.2 = true

/-- The segment `p1`-`p2` meets the closing edge from the last point of the ring
to its first point according to `doLineSegmentsIntersect`. -/
def ClosingHit (p1 p2 : GeographicPosition) (ring : List (ℚ × ℚ)) : Prop :=
  ∃ b f, ring.getLast? = some b ∧ ring.head? = some f ∧
    doLineSegmentsIntersect p1.lon p1.lat p2.lon p2.lat b.1 b.2 f.1 f.2 = true

/-- The ring condition of the specification of `intersects`: the segment crosses
a ring edge `(ring[i], ring[i + 1])` with `0 ≤ i < size - 1`, or the closing edge,
or the arithmetic midpoint of the segment is inside the ring. -/
def RingHit (p1 p2 : GeographicPosition) (ring : List (ℚ × ℚ)) : Prop :=
  (∃ i, i + 1 < ring.length ∧ EdgeHit p1 p2 ring i) ∨ ClosingHit p1 p2 ring ∨
    isPointInPolygon ((p1.lon + p2.lon) / 2, (p1.lat + p2.lat) / 2) ring = some true

/-- The term that section 4.3, step 3 of the specification adds to the score for
the candidate `q` of an edge `p1`-`p2` with midpoint `m`, central angle `c` and
length `c_km`; 0 for a candidate that the step skips. -/
def scoreTerm (env : Collaborators) (minLength beta : ℚ) (p1 p2 m : GeographicPosition)
    (c c_km : ℚ) (q : PopulatedPosition) : ℚ :=
  let pos : GeographicPosition := ⟨q._lat, q._lon⟩
  let a := env.sphericalDist p1 pos
  let b := env.sphericalDist p2 pos
  let inclusionAngle := env.ihs ((env.hs c - env.hs (a - b)) / (env.sin a * env.sin b))
  if q._population = 0 then 0
  else if inclusionAngle < env.M_PI - env.asin beta then 0
  else
    let adoption := env.inetStat q._country / 100
    let popWeight := 1 - env.sphericalDist pos m / (1 / 2 * c)
    popWeight * q._population * adoption ^ 2 * (minLength / c_km) ^ 2

/-- The score accumulated over the first `k` terms of a scan. -/
def prefixScore (terms : List ℚ) (k : Nat) : ℚ := (terms.take k).sum

/-- The adoption of section 4.3 of the specification for an edge with at least
one city end: the mean of the adoption fractions of the two countries when both
ends are city nodes, the fraction of the country of the one city node otherwise. -/
def adoptionFraction (env : Collaborators) (nd1 nd2 : GeographicNode) : ℚ :=
  if nd1.isCityNode && nd2.isCityNode then
    (env.inetStat nd1.country / 100 + env.inetStat nd2.country / 100) / 2
  else if nd1.isCityNode then env.inetStat nd1.country / 100
  else env.inetStat nd2.country / 100

/-- The node `nd1` of the body of both filters for the edge `it`. -/
def edgeNode1 (self : PopulationDensityFilter) (it : Nat) : GeographicNode :=
  self._baseTopo.getNodeMap (self._baseTopo.getGraph.u it)

/-- The node `nd2` of the body of both filters for the edge `it`. -/
def edgeNode2 (self : PopulationDensityFilter) (it : Nat) : GeographicNode :=
  self._baseTopo.getNodeMap (self._baseTopo.getGraph.v it)

/-- The position `p1` of the body of both filters for the edge `it`. -/
def edgeP1 (self : PopulationDensityFilter) (it : Nat) : GeographicPosition :=
  ⟨(edgeNode1 self it).lat, (edgeNode1 self it).lon⟩

/-- The position `p2` of the body of both filters for the edge `it`. -/
def edgeP2 (self : PopulationDensityFilter) (it : Nat) : GeographicPosition :=
  ⟨(edgeNode2 self it).lat, (edgeNode2 self it).lon⟩

/-- The central angle `c` of the edge `it`. -/
def edgeAngle (env : Collaborators) (self : PopulationDensityFilter) (it : Nat) : ℚ :=
  env.sphericalDist (edgeP1 self it) (edgeP2 self it)

/-- The length `c_km` of the edge `it`. -/
def edgeKm (env : Collaborators) (self : PopulationDensityFilter) (it : Nat) : ℚ :=
  env.sphericalDistToKM (edgeAngle env self it)

/-- The midpoint `m` of the edge `it`. -/
def edgeMidPoint (env : Collaborators) (self : PopulationDensityFilter) (it : Nat) :
    GeographicPosition :=
  ⟨(env.getMidPointCoordinates (edgeP1 self it) (edgeP2 self it)).1,
    (env.getMidPointCoordinates (edgeP1 self it) (edgeP2 self it)).2⟩

/-- The candidates of the scan opened for the edge `it`, in scan order. -/
def edgeScan (env : Collaborators) (self : PopulationDensityFilter) (it : Nat) :
    List PopulatedPosition :=
  env.areaReader self._dbFilename (edgeMidPoint env self it).lat (edgeMidPoint env self it).lon
    (env.rad2deg (edgeAngle env self it))

/-- The score terms of the candidates of the scan opened for the edge `it`, in
scan order, for the configuration values `minLength` and `beta`. -/
def edgeTerms (env : Collaborators) (self : PopulationDensityFilter) (minLength beta : ℚ)
    (it : Nat) : List ℚ :=
  (edgeScan env self it).map
    (scoreTerm env minLength beta (edgeP1 self it) (edgeP2 self it) (edgeMidPoint env self it)
      (edgeAngle env self it) (edgeKm env self it))

/-- The edges of a ring as pairs of end points, the closing edge last. -/
def ringEdges (ring : List (ℚ × ℚ)) : List ((ℚ × ℚ) × (ℚ × ℚ)) :=
  ring.zip (ring.tail ++ ring.take 1)

/-- The number of edges of a ring, closing edge included, that the segment
`p1`-`p2` meets according to `doLineSegmentsIntersect`. -/
def crossedEdges (p1 p2 : GeographicPosition) (ring : List (ℚ × ℚ)) : Nat :=
  ((ringEdges ring).filter (fun e =>
    doLineSegmentsIntersect p1.lon p1.lat p2.lon p2.lat e.1.1 e.1.2 e.2.1 e.2.2)).length

/-- The pair that the specification reads from a coordinate entry: the entry has
exactly two components and both are numeric, that is `std::stod` accepts them. -/
def entryPair (stod : String → Option ℚ) (entry : PTree) : Option (ℚ × ℚ) :=
  match entry.children with
  | [a, b] =>
    match stod a.2.data, stod b.2.data with
    | some x, some y => some (x, y)
    | _, _ => none
  | _ => none

/-- The ring that the specification reads from a ring array: the pairs of its
valid coordinate entries, in document order. -/
def specRing (stod : String → Option ℚ) (ringArray : PTree) : List (ℚ × ℚ) :=
  ringArray.children.filterMap (fun entry => entryPair stod entry.2)

/-- The rings that the specification reads from the coordinates of a geometry:
the rings of all its ring arrays, in document order, without the empty ones. -/
def specRings (stod : String → Option ℚ) (coordinates : PTree) : List (List (ℚ × ℚ)) :=
  (coordinates.children.flatMap
    (fun polyArray => polyArray.2.children.map (fun ringArray => specRing stod ringArray.2))).filter
    (fun ring => ring ≠ [])

/-- The polygon that the specification imports from a feature, if any: the
geometry has the type `"MultiPolygon"` and at least one non-empty ring. -/
def specFeature (stod : String → Option ℚ) (feature : PTree) : Option Polygon :=
  match feature.get_child "geometry" with
  | none => none
  | some geometry =>
    match geometry.get_child "type", geometry.get_child "coordinates" with
    | some geomType, some coordinates =>
      if geomType.data = "MultiPolygon" ∧ specRings stod coordinates ≠ [] then
        some ⟨specRings stod coordinates⟩
      else none
    | _, _ => none

/-- The first conjunct of the condition of `isPointInPolygon`: the latitudes of
`pi` and `pj` lie on different sides of the latitude of the point. -/
def straddles (point pi pj : ℚ × ℚ) : Bool :=
  decide (pi.2 > point.2) != decide (pj.2 > point.2)

/-- The condition of `isPointInPolygon` with a partial division: `none` when the
condition evaluates a division by zero. -/
def edgeTogglesChecked (point pi pj : ℚ × ℚ) : Option Bool :=
  if straddles point pi pj then
    if pj.2 - pi.2 = 0 then none
    else some (decide (point.1 < (pj.1 - pi.1) * (point.2 - pi.2) / (pj.2 - pi.2) + pi.1))
  else some false

/-- The ring of an axis-aligned rectangle with the corners `(x0, y0)` and `(x1, y1)`. -/
def rectangleRing (x0 y0 x1 y1 : ℚ) : List (ℚ × ℚ) :=
  [(x0, y0), (x0, y1), (x1, y1), (x1, y0)]

/-! ## Example inputs -/

/-- The ring of the scenario of section 8 of the specification. -/
def squareRing : List (ℚ × ℚ) := [(0, 0), (0, 10), (10, 10), (10, 0)]

/-- A polygon store that holds the ring of the scenario and nothing else. -/
def squareStore : List Polygon := [⟨[squareRing]⟩]

/-- A polygon store with two polygons and three rings. -/
def sampleStore : List Polygon := [⟨[[(20, 20), (30, 20), (30, 30)], [(40, 40)]]⟩, ⟨[squareRing]⟩]

/-- Collaborators under which every edge has the length `km`, every scan yields
`scan`, every country has an adoption of `percent`, no candidate is outside the
inclusion region, assertions are compiled in, and the configuration holds
`minLength`, `threshold` and a `beta` of one half. -/
def sampleEnv (km minLength threshold percent : ℚ) (scan : List PopulatedPosition) :
    Collaborators :=
  ⟨fun _ _ => km / 6371, fun c => 6371 * c,
    fun p q => ((p.lat + q.lat) / 2, (p.lon + q.lon) / 2), fun c => c * 180 * 113 / 355,
    fun x => x, fun x => x, fun _ => 1, fun _ => 0, 0,
    fun _ => percent, fun _ _ _ _ => scan,
    fun key => if key = "lengthFilter.minLength" then minLength
      else if key = "lengthFilter.populationThreshold" then threshold else 1 / 2,
    false⟩

/-- Four nodes: two city nodes on either side of the square of `squareRing`, a
node that is neither a city node nor a landing point, and a landing point. -/
def sampleNodes (n : Nat) : GeographicNode :=
  if n = 0 then ⟨5, -5, true, false, "A"⟩
  else if n = 1 then ⟨5, 15, true, false, "B"⟩
  else if n = 2 then ⟨5, 15, false, false, ""⟩
  else ⟨5, 15, false, true, ""⟩

/-- Three edges out of node 0: edge 0 to the other city node, edge 1 to the node
of another kind, edge 2 to the landing point. -/
def sampleGraph : Graph := ⟨[0, 1, 2], fun _ => 0, fun e => e + 1, [0, 1, 2, 3]⟩

/-- A scan of three candidates: two populated ones around one without population. -/
def sampleScan : List PopulatedPosition :=
  [⟨5, 0, 400, "A"⟩, ⟨5, 5, 0, "A"⟩, ⟨5, 10, 800, "B"⟩]

/-- A filter object over `sampleGraph` with the store `squareStore`. -/
def sampleFilter (filterFlag : Int) : PopulationDensityFilter :=
  ⟨"db", ⟨sampleGraph, sampleNodes⟩, filterFlag, squareStore⟩

/-- Two landing points on either side of the square of `squareRing`. -/
def landingNodes (n : Nat) : GeographicNode :=
  if n = 0 then ⟨5, -5, false, true, ""⟩ else ⟨5, 15, false, true, ""⟩

/-- A filter object over a graph with the single edge 0 between the two landing
points of `landingNodes`, with the store `squareStore`. -/
def landingFilter (filterFlag : Int) : PopulationDensityFilter :=
  ⟨"db", ⟨⟨[0], fun _ => 0, fun _ => 1, [0, 1]⟩, landingNodes⟩, filterFlag, squareStore⟩

/-- A leaf of a property tree under the empty key, as an array element is. -/
def sampleLeaf (s : String) : String × PTree := ("", .mk s [])

/-- An array of a property tree under the empty key. -/
def sampleArray (l : List (String × PTree)) : String × PTree := ("", .mk "" l)

/-- A feature with the geometry type `geomType` and one ring array of the five
entries `[0, 0]`, `[0, 10]`, `["x", 1]`, `[10, 10, 3]` and `[10, 0]`. -/
def sampleFeature (geomType : String) : String × PTree :=
  ("", .mk "" [("geometry", .mk "" [("type", .mk geomType []),
    ("coordinates", .mk "" [sampleArray [sampleArray [
      sampleArray [sampleLeaf "0", sampleLeaf "0"],
      sampleArray [sampleLeaf "0", sampleLeaf "10"],
      sampleArray [sampleLeaf "x", sampleLeaf "1"],
      sampleArray [sampleLeaf "10", sampleLeaf "10", sampleLeaf "3"],
      sampleArray [sampleLeaf "10", sampleLeaf "0"]]]])])])

/-- Three features: a multi-polygon, a feature without geometry and a point. -/
def sampleFeatures : PTree :=
  .mk "" [sampleFeature "MultiPolygon", ("", .mk "" [("id", .mk "7" [])]), sampleFeature "Point"]

/-- A resource with the three features of `sampleFeatures`. -/
def sampleTree : PTree :=
  .mk "" [("type", .mk "FeatureCollection" []), ("features", sampleFeatures)]

/-- A reading of numbers that accepts the strings `"0"`, `"1"`, `"3"` and `"10"`. -/
def sampleStod (s : String) : Option ℚ :=
  if s = "0" then some 0 else if s = "1" then some 1 else if s = "3" then some 3
  else if s = "10" then some 10 else none

/-! ## Lemmas on the geometry kernel -/

theorem sizeMinusOne_eq_mod {α : Type} (v : List α) (h : v.length < SIZE_MOD) :
    sizeMinusOne v = (v.length + SIZE_MOD - 1) % SIZE_MOD := by
  unfold sizeMinusOne SIZE_MOD at *
  split_ifs with h0
  · rw [h0]; norm_num
  · rw [show v.length + 2 ^ 64 - 1 = (v.length - 1) + 1 * 2 ^ 64 by omega, Nat.add_mul_mod_self_right]
    exact (Nat.mod_eq_of_lt (by omega)).symm

theorem sizeMinusOne_of_ne_nil {α : Type} {v : List α} (h : v ≠ []) :
    sizeMinusOne v = v.length - 1 := by
  have : v.length ≠ 0 := fun h0 => h (List.length_eq_zero.mp h0)
  simp [sizeMinusOne, this]

theorem isPointInPolygonLoop_eq (point : ℚ × ℚ) (polygon : List (ℚ × ℚ)) :
    ∀ (fuel i j : Nat) (inside : Bool) (pj : ℚ × ℚ), polygon.length - i < fuel →
      polygon[j]? = some pj →
      isPointInPolygonLoop point polygon fuel i j inside =
        some (toggleWalk point pj (polygon.drop i) inside) := by
  intro fuel
  induction fuel with
  | zero => intro i j inside pj h; omega
  | succ fuel ih =>
    intro i j inside pj hfuel hj
    unfold isPointInPolygonLoop
    by_cases hi : i < polygon.length
    · have hget : polygon[i]? = some polygon[i] := List.getElem?_eq_getElem hi
      rw [if_pos hi, hget, hj]
      simp only []
      rw [ih (i + 1) i _ polygon[i] (by omega) hget, List.drop_eq_getElem_cons hi]
      rfl
    · rw [if_neg hi, List.drop_eq_nil_of_le (by omega)]
      rfl

/-- The result of `isPointInPolygon` on a non-empty ring: the walk along the
ring that starts from its last point. -/
theorem isPointInPolygon_cons (point p : ℚ × ℚ) (l : List (ℚ × ℚ)) :
    isPointInPolygon point (p :: l) =
      some (toggleWalk point ((p :: l).getLast (List.cons_ne_nil p l)) (p :: l) false) := by
  unfold isPointInPolygon
  rw [isPointInPolygonLoop_eq point (p :: l) _ 0 _ false
    ((p :: l).getLast (List.cons_ne_nil p l)) (by simp)]
  · simp
  · rw [sizeMinusOne_of_ne_nil (List.cons_ne_nil p l), List.getLast_eq_getElem]
    exact List.getElem?_eq_getElem _

theorem isPointInPolygon_nil (point : ℚ × ℚ) : isPointInPolygon point [] = some false := by
  simp [isPointInPolygon, isPointInPolygonLoop]

theorem isPointInPolygon_isSome (point : ℚ × ℚ) (ring : List (ℚ × ℚ)) :
    ∃ b, isPointInPolygon point ring = some b := by
  cases ring with
  | nil => exact ⟨false, isPointInPolygon_nil point⟩
  | cons p l => exact ⟨_, isPointInPolygon_cons point p l⟩

theorem toggleWalk_not (point : ℚ × ℚ) (l : List (ℚ × ℚ)) :
    ∀ (prev : ℚ × ℚ) (inside : Bool),
      toggleWalk point prev l (!inside) = !(toggleWalk point prev l inside) := by
  induction l with
  | nil => intro prev inside; rfl
  | cons p r ih =>
    intro prev inside
    simp only [toggleWalk]
    by_cases he : edgeToggles point p prev = true
    · simp only [he, if_true]; exact ih p (!inside)
    · simp only [he, if_false]; exact ih p inside

theorem toggleWalk_concat (point z : ℚ × ℚ) (l : List (ℚ × ℚ)) :
    ∀ (prev : ℚ × ℚ) (inside : Bool),
      toggleWalk point prev (l ++ [z]) inside =
        (if edgeToggles point z ((prev :: l).getLast (List.cons_ne_nil prev l))
          then !(toggleWalk point prev l inside) else toggleWalk point prev l inside) := by
  induction l with
  | nil => intro prev inside; simp [toggleWalk]
  | cons p r ih =>
    intro prev inside
    change toggleWalk point p (r ++ [z]) _ = _
    rw [ih p]
    simp [List.getLast_cons, toggleWalk]

theorem isPointInPolygon_rotate_one (point a : ℚ × ℚ) (l : List (ℚ × ℚ)) :
    isPointInPolygon point (l ++ [a]) = isPointInPolygon point (a :: l) := by
  rw [isPointInPolygon_cons]
  cases l with
  | nil => rw [List.nil_append, isPointInPolygon_cons]
  | cons p r =>
    rw [List.cons_append, isPointInPolygon_cons]
    have hlast : (p :: (r ++ [a])).getLast (List.cons_ne_nil _ _) = a := by
      simp [List.getLast_cons]
    rw [hlast, ← List.cons_append, toggleWalk_concat]
    congr 1
    simp only [toggleWalk]
    generalize edgeToggles point a ((a :: p :: r).getLast (List.cons_ne_nil _ _)) = e
    generalize edgeToggles point p a = f
    have hn : toggleWalk point p r true = !(toggleWalk point p r false) :=
      toggleWalk_not point r p false
    cases e <;> cases f <;> simp [hn]

theorem isPointInPolygon_rotate_aux (point : ℚ × ℚ) :
    ∀ (k : Nat) (ring : List (ℚ × ℚ)),
      isPointInPolygon point (ring.rotate k) = isPointInPolygon point ring := by
  intro k
  induction k with
  | zero => intro ring; rw [List.rotate_zero]
  | succ k ih =>
    intro ring
    cases ring with
    | nil => rw [List.rotate_nil]
    | cons a l => rw [List.rotate_cons_succ, ih, isPointInPolygon_rotate_one]

theorem doLineSegmentsIntersect_eq_true_iff (x1 y1 x2 y2 x3 y3 x4 y4 : ℚ) :
    doLineSegmentsIntersect x1 y1 x2 y2 x3 y3 x4 y4 = true ↔
      ¬ |(y4 - y3) * (x2 - x1) - (x4 - x3) * (y2 - y1)| < 1 / 100000000 ∧
      0 ≤ ((x4 - x3) * (y1 - y3) - (y4 - y3) * (x1 - x3)) /
        ((y4 - y3) * (x2 - x1) - (x4 - x3) * (y2 - y1)) ∧
      ((x4 - x3) * (y1 - y3) - (y4 - y3) * (x1 - x3)) /
        ((y4 - y3) * (x2 - x1) - (x4 - x3) * (y2 - y1)) ≤ 1 ∧
      0 ≤ ((x2 - x1) * (y1 - y3) - (y2 - y1) * (x1 - x3)) /
        ((y4 - y3) * (x2 - x1) - (x4 - x3) * (y2 - y1)) ∧
      ((x2 - x1) * (y1 - y3) - (y2 - y1) * (x1 - x3)) /
        ((y4 - y3) * (x2 - x1) - (x4 - x3) * (y2 - y1)) ≤ 1 := by
  unfold doLineSegmentsIntersect
  simp only []
  split_ifs with h
  · constructor
    · intro hf; exact absurd hf (by decide)
    · intro hf; exact absurd h hf.1
  · simp only [Bool.and_eq_true, decide_eq_true_eq, ge_iff_le]
    tauto

theorem doLineSegmentsIntersect_swap (x1 y1 x2 y2 x3 y3 x4 y4 : ℚ) :
    doLineSegmentsIntersect x1 y1 x2 y2 x3 y3 x4 y4 =
      doLineSegmentsIntersect x3 y3 x4 y4 x1 y1 x2 y2 := by
  rw [Bool.eq_iff_iff, doLineSegmentsIntersect_eq_true_iff, doLineSegmentsIntersect_eq_true_iff]
  have hd : (y2 - y1) * (x4 - x3) - (x2 - x1) * (y4 - y3) =
      -((y4 - y3) * (x2 - x1) - (x4 - x3) * (y2 - y1)) := by ring
  have ha : (x2 - x1) * (y3 - y1) - (y2 - y1) * (x3 - x1) =
      -((x2 - x1) * (y1 - y3) - (y2 - y1) * (x1 - x3)) := by ring
  have hb : (x4 - x3) * (y3 - y1) - (y4 - y3) * (x3 - x1) =
      -((x4 - x3) * (y1 - y3) - (y4 - y3) * (x1 - x3)) := by ring
  rw [hd, ha, hb, abs_neg, neg_div_neg_eq, neg_div_neg_eq]
  tauto

theorem EdgeHit.lt {p1 p2 : GeographicPosition} {ring : List (ℚ × ℚ)} {k : Nat}
    (h : EdgeHit p1 p2 ring k) : k + 1 < ring.length := by
  obtain ⟨a, b, -, hb, -⟩ := h
  exact (List.getElem?_eq_some_iff.mp hb).1

theorem ringEdgeLoop_spec (p1 p2 : GeographicPosition) (ring : List (ℚ × ℚ)) (hne : ring ≠ []) :
    ∀ (fuel i : Nat), ring.length - 1 - i < fuel →
      ∃ b, ringEdgeLoop p1 p2 ring fuel i = some b ∧
        (b = true ↔ ∃ k, i ≤ k ∧ EdgeHit p1 p2 ring k) := by
  intro fuel
  induction fuel with
  | zero => intro i h; omega
  | succ fuel ih =>
    intro i hfuel
    unfold ringEdgeLoop
    rw [sizeMinusOne_of_ne_nil hne]
    by_cases hi : i < ring.length - 1
    · have h0 : i < ring.length := by omega
      have h1 : i + 1 < ring.length := by omega
      have hg0 : ring[i]? = some ring[i] := List.getElem?_eq_getElem h0
      have hg1 : ring[i + 1]? = some ring[i + 1] := List.getElem?_eq_getElem h1
      rw [if_pos hi, hg0, hg1]
      simp only []
      by_cases hhit : doLineSegmentsIntersect p1.lon p1.lat p2.lon p2.lat
          ring[i].1 ring[i].2 ring[i + 1].1 ring[i + 1].2 = true
      · rw [if_pos hhit]
        exact ⟨true, rfl, fun _ => ⟨i, le_refl i, _, _, hg0, hg1, hhit⟩, fun _ => rfl⟩
      · rw [if_neg hhit]
        obtain ⟨b, hb, hiff⟩ := ih (i + 1) (by omega)
        refine ⟨b, hb, hiff.trans ⟨?_, ?_⟩⟩
        · rintro ⟨k, hk, hit⟩
          exact ⟨k, by omega, hit⟩
        · rintro ⟨k, hk, hit⟩
          refine ⟨k, ?_, hit⟩
          rcases Nat.eq_or_lt_of_le hk with heq | hlt
          · exfalso
            subst heq
            obtain ⟨a, c, ha, hc, hac⟩ := hit
            rw [hg0] at ha
            rw [hg1] at hc
            cases ha
            cases hc
            exact hhit hac
          · exact hlt
    · rw [if_neg hi]
      refine ⟨false, rfl, fun h => Bool.noConfusion h, ?_⟩
      rintro ⟨k, hk, hit⟩
      have := hit.lt
      omega

theorem ringCheck_spec (p1 p2 : GeographicPosition) (ring : List (ℚ × ℚ)) (hne : ring ≠ []) :
    ∃ b, ringCheck p1 p2 ring = some b ∧ (b = true ↔ RingHit p1 p2 ring) := by
  obtain ⟨e, he, heiff⟩ :=
    ringEdgeLoop_spec p1 p2 ring hne (sizeMinusOne ring + 1) 0
      (by rw [sizeMinusOne_of_ne_nil hne]; omega)
  have hedge : e = true ↔ ∃ i, i + 1 < ring.length ∧ EdgeHit p1 p2 ring i := by
    rw [heiff]
    exact ⟨fun ⟨k, _, hit⟩ => ⟨k, hit.lt, hit⟩, fun ⟨k, _, hit⟩ => ⟨k, Nat.zero_le k, hit⟩⟩
  obtain ⟨l, hl⟩ : ∃ l, ring.getLast? = some l := ⟨_, List.getLast?_eq_getLast ring hne⟩
  obtain ⟨f, hf⟩ : ∃ f, ring.head? = some f := ⟨_, List.head?_eq_head hne⟩
  obtain ⟨m, hm⟩ := isPointInPolygon_isSome ((p1.lon + p2.lon) / 2, (p1.lat + p2.lat) / 2) ring
  unfold ringCheck
  rw [he, hl, hf]
  cases e with
  | true => exact ⟨true, rfl, fun _ => Or.inl (hedge.mp rfl), fun _ => rfl⟩
  | false =>
    have hnoedge : ¬ ∃ i, i + 1 < ring.length ∧ EdgeHit p1 p2 ring i := by
      intro h; exact absurd (hedge.mpr h) (by decide)
    simp only []
    by_cases hc : doLineSegmentsIntersect p1.lon p1.lat p2.lon p2.lat l.1 l.2 f.1 f.2 = true
    · rw [if_pos hc]
      exact ⟨true, rfl, fun _ => Or.inr (Or.inl ⟨l, f, hl, hf, hc⟩), fun _ => rfl⟩
    · rw [if_neg hc]
      have hnoclose : ¬ ClosingHit p1 p2 ring := by
        rintro ⟨l', f', hl', hf', hc'⟩
        rw [hl] at hl'
        rw [hf] at hf'
        cases hl'
        cases hf'
        exact hc hc'
      rw [hm]
      cases m with
      | true => exact ⟨true, rfl, fun _ => Or.inr (Or.inr hm), fun _ => rfl⟩
      | false =>
        refine ⟨false, rfl, fun h => Bool.noConfusion h, ?_⟩
        rintro (h | h | h)
        · exact absurd h hnoedge
        · exact absurd h hnoclose
        · rw [hm] at h; cases h

theorem ringsLoop_spec (p1 p2 : GeographicPosition) :
    ∀ (rings : List (List (ℚ × ℚ))), (∀ ring ∈ rings, ring ≠ []) →
      ∃ b, ringsLoop p1 p2 rings = some b ∧ (b = true ↔ ∃ ring ∈ rings, RingHit p1 p2 ring) := by
  intro rings
  induction rings with
  | nil => intro _; exact ⟨false, rfl, by simp⟩
  | cons ring rest ih =>
    intro hne
    obtain ⟨c, hc, hciff⟩ := ringCheck_spec p1 p2 ring (hne ring (List.mem_cons_self _ _))
    obtain ⟨b, hb, hbiff⟩ := ih (fun r hr => hne r (List.mem_cons_of_mem _ hr))
    unfold ringsLoop
    rw [hc]
    cases c with
    | true => exact ⟨true, rfl, fun _ => ⟨ring, List.mem_cons_self _ _, hciff.mp rfl⟩, fun _ => rfl⟩
    | false =>
      refine ⟨b, hb, hbiff.trans ⟨?_, ?_⟩⟩
      · rintro ⟨r, hr, hit⟩
        exact ⟨r, List.mem_cons_of_mem _ hr, hit⟩
      · rintro ⟨r, hr, hit⟩
        rcases List.mem_cons.mp hr with heq | hmem
        · subst heq; exact absurd (hciff.mpr hit) (by decide)
        · exact ⟨r, hmem, hit⟩

theorem polygonsLoop_spec (p1 p2 : GeographicPosition) :
    ∀ (polygons : List Polygon),
      (∀ polygon ∈ polygons, ∀ ring ∈ polygon.coordinates, ring ≠ []) →
      ∃ b, polygonsLoop p1 p2 polygons = some b ∧
        (b = true ↔ ∃ polygon ∈ polygons, ∃ ring ∈ polygon.coordinates, RingHit p1 p2 ring) := by
  intro polygons
  induction polygons with
  | nil => intro _; exact ⟨false, rfl, by simp⟩
  | cons polygon rest ih =>
    intro hne
    obtain ⟨c, hc, hciff⟩ :=
      ringsLoop_spec p1 p2 polygon.coordinates (hne polygon (List.mem_cons_self _ _))
    obtain ⟨b, hb, hbiff⟩ := ih (fun q hq => hne q (List.mem_cons_of_mem _ hq))
    unfold polygonsLoop
    rw [hc]
    cases c with
    | true =>
      exact ⟨true, rfl, fun _ => ⟨polygon, List.mem_cons_self _ _, hciff.mp rfl⟩, fun _ => rfl⟩
    | false =>
      refine ⟨b, hb, hbiff.trans ⟨?_, ?_⟩⟩
      · rintro ⟨q, hq, hit⟩
        exact ⟨q, List.mem_cons_of_mem _ hq, hit⟩
      · rintro ⟨q, hq, hit⟩
        rcases List.mem_cons.mp hq with heq | hmem
        · subst heq; exact absurd (hciff.mpr hit) (by decide)
        · exact ⟨q, hmem, hit⟩

/-! ## Lemmas on the edge traversal and the commit -/

theorem edgeLoop_spec (body : Nat → Option Bool) :
    ∀ (edges marked out : List Nat), edgeLoop body edges marked = some out →
      (∀ e ∈ edges, ∃ b, body e = some b) ∧
      (∀ x, x ∈ out ↔ x ∈ marked ∨ (x ∈ edges ∧ body x = some true)) := by
  intro edges
  induction edges with
  | nil =>
    intro marked out h
    simp only [edgeLoop, Option.some.injEq] at h
    subst h
    simp
  | cons it rest ih =>
    intro marked out h
    unfold edgeLoop at h
    cases hb : body it with
    | none => rw [hb] at h; cases h
    | some b =>
      rw [hb] at h
      cases b with
      | true =>
        obtain ⟨hdef, hmem⟩ := ih _ _ h
        refine ⟨?_, ?_⟩
        · intro e he
          rcases List.mem_cons.mp he with heq | hin
          · exact ⟨true, heq ▸ hb⟩
          · exact hdef e hin
        · intro x
          rw [hmem x, List.mem_append, List.mem_singleton, List.mem_cons]
          constructor
          · rintro ((h1 | h1) | ⟨h1, h2⟩)
            · exact Or.inl h1
            · exact Or.inr ⟨Or.inl h1, h1 ▸ hb⟩
            · exact Or.inr ⟨Or.inr h1, h2⟩
          · rintro (h1 | ⟨h1 | h1, h2⟩)
            · exact Or.inl (Or.inl h1)
            · exact Or.inl (Or.inr h1)
            · exact Or.inr ⟨h1, h2⟩
      | false =>
        obtain ⟨hdef, hmem⟩ := ih _ _ h
        refine ⟨?_, ?_⟩
        · intro e he
          rcases List.mem_cons.mp he with heq | hin
          · exact ⟨false, heq ▸ hb⟩
          · exact hdef e hin
        · intro x
          rw [hmem x, List.mem_cons]
          constructor
          · rintro (h1 | ⟨h1, h2⟩)
            · exact Or.inl h1
            · exact Or.inr ⟨Or.inr h1, h2⟩
          · rintro (h1 | ⟨h1 | h1, h2⟩)
            · exact Or.inl h1
            · subst h1; rw [hb] at h2; cases h2
            · exact Or.inr ⟨h1, h2⟩

theorem edgeLoop_isSome (body : Nat → Option Bool) :
    ∀ (edges marked : List Nat), (∀ e ∈ edges, ∃ b, body e = some b) →
      ∃ out, edgeLoop body edges marked = some out := by
  intro edges
  induction edges with
  | nil => intro marked _; exact ⟨marked, rfl⟩
  | cons it rest ih =>
    intro marked hdef
    obtain ⟨b, hb⟩ := hdef it (List.mem_cons_self _ _)
    have hrest : ∀ e ∈ rest, ∃ b, body e = some b := fun e he => hdef e (List.mem_cons_of_mem _ he)
    unfold edgeLoop
    rw [hb]
    cases b with
    | true => exact ih _ hrest
    | false => exact ih _ hrest

theorem eraseLoop_edges :
    ∀ (marked : List Nat) (graph : Graph) (x : Nat),
      x ∈ (eraseLoop marked graph).edges ↔ x ∈ graph.edges ∧ x ∉ marked := by
  intro marked
  induction marked with
  | nil => intro graph x; simp [eraseLoop]
  | cons edge rest ih =>
    intro graph x
    unfold eraseLoop
    rw [ih]
    simp only [Graph.erase, List.mem_filter, decide_eq_true_eq, List.mem_cons, not_or]
    tauto

/-- An edge survives a run of the traversal and the commit exactly when it was
in the graph and the body of the traversal did not mark it. -/
theorem commit_spec (body : Nat → Option Bool) (graph : Graph) (marked : List Nat)
    (h : edgeLoop body graph.edges [] = some marked) (x : Nat) :
    x ∈ (eraseLoop marked graph).edges ↔ x ∈ graph.edges ∧ body x = some false := by
  obtain ⟨hdef, hmem⟩ := edgeLoop_spec body _ _ _ h
  rw [eraseLoop_edges, hmem x]
  constructor
  · rintro ⟨hx, hnot⟩
    obtain ⟨b, hb⟩ := hdef x hx
    cases b with
    | true => exact absurd (Or.inr ⟨hx, hb⟩) hnot
    | false => exact ⟨hx, hb⟩
  · rintro ⟨hx, hb⟩
    refine ⟨hx, ?_⟩
    rintro (h1 | ⟨-, h2⟩)
    · cases h1
    · rw [hb] at h2; cases h2

theorem filter_edges (env : Collaborators) (self : PopulationDensityFilter) (graph : Graph)
    (h : filter env self = some graph) (x : Nat) :
    x ∈ graph.edges ↔ x ∈ self._baseTopo.getGraph.edges ∧
      filterBody env self (env.config "lengthFilter.minLength")
        (env.config "lengthFilter.populationThreshold") (env.config "lengthFilter.beta") x =
        some false := by
  unfold filter at h
  cases hm : filterMarks env self with
  | none => rw [hm] at h; cases h
  | some marked =>
    rw [hm] at h
    cases h
    exact commit_spec _ _ _ hm x

theorem filterByLength_edges (env : Collaborators) (self : PopulationDensityFilter)
    (graph : Graph) (h : filterByLength env self = some graph) (x : Nat) :
    x ∈ graph.edges ↔ x ∈ self._baseTopo.getGraph.edges ∧
      filterByLengthBody env self (env.config "lengthFilter.minLength") x = some false := by
  unfold filterByLength at h
  cases hm : filterByLengthMarks env self with
  | none => rw [hm] at h; cases h
  | some marked =>
    rw [hm] at h
    cases h
    exact commit_spec _ _ _ hm x

theorem filter_body_isSome (env : Collaborators) (self : PopulationDensityFilter)
    (graph : Graph) (h : filter env self = some graph) (x : Nat)
    (hx : x ∈ self._baseTopo.getGraph.edges) :
    ∃ b, filterBody env self (env.config "lengthFilter.minLength")
      (env.config "lengthFilter.populationThreshold") (env.config "lengthFilter.beta") x =
      some b := by
  unfold filter at h
  cases hm : filterMarks env self with
  | none => rw [hm] at h; cases h
  | some marked => exact (edgeLoop_spec _ _ _ _ hm).1 x hx

theorem filterByLength_body_isSome (env : Collaborators) (self : PopulationDensityFilter)
    (graph : Graph) (h : filterByLength env self = some graph) (x : Nat)
    (hx : x ∈ self._baseTopo.getGraph.edges) :
    ∃ b, filterByLengthBody env self (env.config "lengthFilter.minLength") x = some b := by
  unfold filterByLength at h
  cases hm : filterByLengthMarks env self with
  | none => rw [hm] at h; cases h
  | some marked => exact (edgeLoop_spec _ _ _ _ hm).1 x hx

/-! ## Lemmas on the bodies of the two filters -/

theorem filterBody_of_not_valid (env : Collaborators) (self : PopulationDensityFilter)
    (MIN_LENGTH POPULATION_THRESHOLD BETA : ℚ) (it : Nat)
    (h : ¬ (isValidNode (edgeNode1 self it) = true ∧ isValidNode (edgeNode2 self it) = true)) :
    filterBody env self MIN_LENGTH POPULATION_THRESHOLD BETA it = some false := by
  unfold filterBody
  simp only []
  rw [if_neg]
  simpa [edgeNode1, edgeNode2] using h

theorem filterByLengthBody_of_not_valid (env : Collaborators) (self : PopulationDensityFilter)
    (MIN_LENGTH : ℚ) (it : Nat)
    (h : ¬ (isValidNode (edgeNode1 self it) = true ∧ isValidNode (edgeNode2 self it) = true)) :
    filterByLengthBody env self MIN_LENGTH it = some false := by
  unfold filterByLengthBody
  simp only []
  rw [if_neg]
  simpa [edgeNode1, edgeNode2] using h

theorem filterBody_of_excluded (env : Collaborators) (self : PopulationDensityFilter)
    (MIN_LENGTH POPULATION_THRESHOLD BETA : ℚ) (it : Nat)
    (h1 : isValidNode (edgeNode1 self it) = true) (h2 : isValidNode (edgeNode2 self it) = true)
    (hx : exclusionCheck self (edgeP1 self it) (edgeP2 self it) = some true) :
    filterBody env self MIN_LENGTH POPULATION_THRESHOLD BETA it = some true := by
  unfold edgeP1 edgeP2 edgeNode1 edgeNode2 at *
  unfold filterBody
  simp only [h1, h2, hx, Bool.and_self, if_true]

theorem filterBody_of_short (env : Collaborators) (self : PopulationDensityFilter)
    (MIN_LENGTH POPULATION_THRESHOLD BETA : ℚ) (it : Nat)
    (hx : exclusionCheck self (edgeP1 self it) (edgeP2 self it) = some false)
    (hshort : edgeKm env self it < MIN_LENGTH) :
    filterBody env self MIN_LENGTH POPULATION_THRESHOLD BETA it = some false := by
  unfold edgeKm edgeAngle edgeP1 edgeP2 edgeNode1 edgeNode2 at *
  unfold filterBody
  simp only [hx, hshort, if_true]
  split_ifs <;> rfl

theorem filterBody_of_long (env : Collaborators) (self : PopulationDensityFilter)
    (MIN_LENGTH POPULATION_THRESHOLD BETA : ℚ) (it : Nat)
    (h1 : isValidNode (edgeNode1 self it) = true) (h2 : isValidNode (edgeNode2 self it) = true)
    (hx : exclusionCheck self (edgeP1 self it) (edgeP2 self it) = some false)
    (hlong : ¬ edgeKm env self it < MIN_LENGTH) :
    filterBody env self MIN_LENGTH POPULATION_THRESHOLD BETA it =
      match filterScanLoop env MIN_LENGTH POPULATION_THRESHOLD BETA (edgeP1 self it)
          (edgeP2 self it) (edgeMidPoint env self it) (edgeAngle env self it) (edgeKm env self it)
          (edgeScan env self it) 0 with
      | none => none
      | some accPopulation => some (decide (accPopulation ≤ POPULATION_THRESHOLD)) := by
  unfold edgeScan edgeMidPoint edgeKm edgeAngle edgeP1 edgeP2 edgeNode1 edgeNode2 at *
  unfold filterBody
  simp only [h1, h2, hx, hlong, Bool.and_self, if_true, if_false]

theorem filterByLengthBody_of_city (env : Collaborators) (self : PopulationDensityFilter)
    (MIN_LENGTH : ℚ) (it : Nat)
    (h1 : isValidNode (edgeNode1 self it) = true) (h2 : isValidNode (edgeNode2 self it) = true)
    (hcity : (edgeNode1 self it).isCityNode = true ∨ (edgeNode2 self it).isCityNode = true)
    (hx : exclusionCheck self (edgeP1 self it) (edgeP2 self it) = some false) :
    filterByLengthBody env self MIN_LENGTH it =
      filterByLengthDecide env MIN_LENGTH (edgeP1 self it) (edgeP2 self it)
        (adoptionFraction env (edgeNode1 self it) (edgeNode2 self it)) := by
  unfold adoptionFraction edgeP1 edgeP2 edgeNode1 edgeNode2 at *
  unfold filterByLengthBody
  simp only [h1, h2, hx, Bool.and_self, if_true, isCityNode, zero_add]
  split_ifs with ha hb hc
  · rfl
  · rfl
  · rfl
  · exfalso
    rcases hcity with h | h
    · exact hb h
    · exact hc h

theorem prefixScore_zero (terms : List ℚ) : prefixScore terms 0 = 0 := by
  simp [prefixScore]

theorem prefixScore_cons_succ (t : ℚ) (terms : List ℚ) (k : Nat) :
    prefixScore (t :: terms) (k + 1) = t + prefixScore terms k := by
  simp [prefixScore]

theorem filterScanLoop_step (env : Collaborators) (MIN_LENGTH POPULATION_THRESHOLD BETA : ℚ)
    (p1 p2 m : GeographicPosition) (c c_km : ℚ) (next : PopulatedPosition)
    (rest : List PopulatedPosition) (acc : ℚ) (hacc : acc ≤ POPULATION_THRESHOLD)
    (hassert : env.NDEBUG = true ∨ 0 ≤ next._population) :
    filterScanLoop env MIN_LENGTH POPULATION_THRESHOLD BETA p1 p2 m c c_km (next :: rest) acc =
      filterScanLoop env MIN_LENGTH POPULATION_THRESHOLD BETA p1 p2 m c c_km rest
        (acc + scoreTerm env MIN_LENGTH BETA p1 p2 m c c_km next) := by
  have hpass : (!env.NDEBUG && !decide (next._population ≥ 0)) = false := by
    rcases hassert with h | h
    · simp [h]
    · simp [h]
  rw [filterScanLoop, if_pos hacc, hpass]
  unfold scoreTerm
  simp only [Bool.false_eq_true, if_false]
  by_cases hzero : next._population = 0
  · simp only [hzero, if_true, add_zero]
  · simp only [hzero, if_false]
    split_ifs with hC
    · rw [add_zero]
    · rfl

theorem filterScanLoop_spec (env : Collaborators) (MIN_LENGTH POPULATION_THRESHOLD BETA : ℚ)
    (p1 p2 m : GeographicPosition) (c c_km : ℚ) :
    ∀ (scan : List PopulatedPosition) (acc : ℚ),
      (env.NDEBUG = true ∨ ∀ q ∈ scan, 0 ≤ q._population) →
      ∃ k, k ≤ scan.length ∧
        filterScanLoop env MIN_LENGTH POPULATION_THRESHOLD BETA p1 p2 m c c_km scan acc =
          some (acc + prefixScore (scan.map (scoreTerm env MIN_LENGTH BETA p1 p2 m c c_km)) k) ∧
        (∀ j, j < k → acc + prefixScore (scan.map (scoreTerm env MIN_LENGTH BETA p1 p2 m c c_km)) j
          ≤ POPULATION_THRESHOLD) ∧
        (k < scan.length → POPULATION_THRESHOLD <
          acc + prefixScore (scan.map (scoreTerm env MIN_LENGTH BETA p1 p2 m c c_km)) k) := by
  intro scan
  induction scan with
  | nil =>
    intro acc _
    refine ⟨0, le_refl _, ?_, ?_, ?_⟩
    · simp [filterScanLoop, prefixScore]
    · intro j hj; omega
    · intro h; simp at h
  | cons next rest ih =>
    intro acc hassert
    by_cases hacc : acc ≤ POPULATION_THRESHOLD
    · have hnext : env.NDEBUG = true ∨ 0 ≤ next._population :=
        hassert.imp id (fun h => h next (List.mem_cons_self _ _))
      have hrest : env.NDEBUG = true ∨ ∀ q ∈ rest, 0 ≤ q._population :=
        hassert.imp id (fun h q hq => h q (List.mem_cons_of_mem _ hq))
      obtain ⟨k, hk, hloop, hbefore, hstop⟩ :=
        ih (acc + scoreTerm env MIN_LENGTH BETA p1 p2 m c c_km next) hrest
      refine ⟨k + 1, by simpa using hk, ?_, ?_, ?_⟩
      · rw [filterScanLoop_step _ _ _ _ _ _ _ _ _ _ _ _ hacc hnext, hloop, List.map_cons,
          prefixScore_cons_succ, add_assoc]
      · intro j hj
        cases j with
        | zero => rw [prefixScore_zero, add_zero]; exact hacc
        | succ j =>
          rw [List.map_cons, prefixScore_cons_succ, ← add_assoc]
          exact hbefore j (by omega)
      · intro hlt
        rw [List.map_cons, prefixScore_cons_succ, ← add_assoc]
        exact hstop (by simpa using hlt)
    · refine ⟨0, Nat.zero_le _, ?_, ?_, ?_⟩
      · rw [filterScanLoop, if_neg hacc, prefixScore_zero, add_zero]
      · intro j hj; omega
      · intro _
        rw [prefixScore_zero, add_zero]
        exact lt_of_not_le hacc

theorem filter_isSome (env : Collaborators) (self : PopulationDensityFilter)
    (h : ∀ e ∈ self._baseTopo.getGraph.edges, ∃ b,
      filterBody env self (env.config "lengthFilter.minLength")
        (env.config "lengthFilter.populationThreshold") (env.config "lengthFilter.beta") e =
        some b) :
    ∃ graph, filter env self = some graph := by
  obtain ⟨marked, hm⟩ := edgeLoop_isSome _ self._baseTopo.getGraph.edges [] h
  refine ⟨eraseLoop marked self._baseTopo.getGraph, ?_⟩
  unfold filter filterMarks
  simp only []
  rw [hm]

theorem filterByLength_isSome (env : Collaborators) (self : PopulationDensityFilter)
    (h : ∀ e ∈ self._baseTopo.getGraph.edges, ∃ b,
      filterByLengthBody env self (env.config "lengthFilter.minLength") e = some b) :
    ∃ graph, filterByLength env self = some graph := by
  obtain ⟨marked, hm⟩ := edgeLoop_isSome _ self._baseTopo.getGraph.edges [] h
  refine ⟨eraseLoop marked self._baseTopo.getGraph, ?_⟩
  unfold filterByLength filterByLengthMarks
  simp only []
  rw [hm]

theorem exclusionCheck_of_not_removed (self : PopulationDensityFilter)
    (p1 p2 : GeographicPosition)
    (h : self._filterFlag ≠ 1 ∨ intersectsAnyPolygon self._polygons p1 p2 = some false) :
    exclusionCheck self p1 p2 = some false := by
  unfold exclusionCheck
  by_cases hf : self._filterFlag = 1
  · rw [if_pos hf]
    rcases h with h | h
    · exact absurd hf h
    · exact h
  · rw [if_neg hf]

theorem exclusionCheck_of_removed (self : PopulationDensityFilter) (p1 p2 : GeographicPosition)
    (hf : self._filterFlag = 1) (h : intersectsAnyPolygon self._polygons p1 p2 = some true) :
    exclusionCheck self p1 p2 = some true := by
  unfold exclusionCheck
  rw [if_pos hf, h]

theorem filterBody_score (env : Collaborators) (self : PopulationDensityFilter)
    (MIN_LENGTH POPULATION_THRESHOLD BETA : ℚ) (it : Nat)
    (h1 : isValidNode (edgeNode1 self it) = true) (h2 : isValidNode (edgeNode2 self it) = true)
    (hx : exclusionCheck self (edgeP1 self it) (edgeP2 self it) = some false)
    (hlong : ¬ edgeKm env self it < MIN_LENGTH)
    (hpop : env.NDEBUG = true ∨ ∀ q ∈ edgeScan env self it, 0 ≤ q._population) :
    ∃ k, k ≤ (edgeTerms env self MIN_LENGTH BETA it).length ∧
      filterScanLoop env MIN_LENGTH POPULATION_THRESHOLD BETA (edgeP1 self it) (edgeP2 self it)
        (edgeMidPoint env self it) (edgeAngle env self it) (edgeKm env self it)
        (edgeScan env self it) 0 = some (prefixScore (edgeTerms env self MIN_LENGTH BETA it) k) ∧
      (∀ j, j < k → prefixScore (edgeTerms env self MIN_LENGTH BETA it) j ≤ POPULATION_THRESHOLD) ∧
      (k < (edgeTerms env self MIN_LENGTH BETA it).length →
        POPULATION_THRESHOLD < prefixScore (edgeTerms env self MIN_LENGTH BETA it) k) ∧
      filterBody env self MIN_LENGTH POPULATION_THRESHOLD BETA it =
        some (decide (prefixScore (edgeTerms env self MIN_LENGTH BETA it) k ≤
          POPULATION_THRESHOLD)) := by
  obtain ⟨k, hk, hloop, hbefore, hstop⟩ :=
    filterScanLoop_spec env MIN_LENGTH POPULATION_THRESHOLD BETA (edgeP1 self it) (edgeP2 self it)
      (edgeMidPoint env self it) (edgeAngle env self it) (edgeKm env self it)
      (edgeScan env self it) 0 hpop
  simp only [zero_add] at hloop hbefore hstop
  refine ⟨k, by simpa [edgeTerms] using hk, hloop, hbefore, ?_, ?_⟩
  · intro hlt
    exact hstop (by simpa [edgeTerms] using hlt)
  · rw [filterBody_of_long env self _ _ _ it h1 h2 hx hlong, hloop]
    rfl

/-! ## Lemmas on the example inputs -/

theorem intersectsAnyPolygon_squareStore (p1 p2 : GeographicPosition)
    (h : RingHit p1 p2 squareRing) : intersectsAnyPolygon squareStore p1 p2 = some true := by
  obtain ⟨b, hb, hiff⟩ := polygonsLoop_spec p1 p2 squareStore (by simp [squareStore, squareRing])
  have htrue : b = true :=
    hiff.mpr ⟨⟨[squareRing]⟩, by simp [squareStore], squareRing, by simp, h⟩
  rw [intersectsAnyPolygon, hb, htrue]

theorem sample_exclusion_enabled :
    exclusionCheck (sampleFilter 1) ⟨5, -5⟩ ⟨5, 15⟩ = some true := by
  unfold exclusionCheck
  rw [if_pos (show (sampleFilter 1)._filterFlag = 1 from rfl)]
  refine intersectsAnyPolygon_squareStore _ _ (Or.inl ⟨0, by simp [squareRing], ?_⟩)
  exact ⟨(0, 0), (0, 10), rfl, rfl, by norm_num [doLineSegmentsIntersect]⟩

theorem sample_exclusion_disabled (p1 p2 : GeographicPosition) :
    exclusionCheck (sampleFilter 0) p1 p2 = some false := rfl

theorem sample_edgeKm (km minLength threshold percent : ℚ) (scan : List PopulatedPosition)
    (self : PopulationDensityFilter) (it : Nat) :
    edgeKm (sampleEnv km minLength threshold percent scan) self it = km := by
  simp only [edgeKm, edgeAngle, sampleEnv]
  field_simp

theorem sample_minLength (km minLength threshold percent : ℚ) (scan : List PopulatedPosition) :
    (sampleEnv km minLength threshold percent scan).config "lengthFilter.minLength" =
      minLength := by
  simp [sampleEnv]

theorem sample_threshold (km minLength threshold percent : ℚ) (scan : List PopulatedPosition) :
    (sampleEnv km minLength threshold percent scan).config "lengthFilter.populationThreshold" =
      threshold := by
  simp [sampleEnv]

theorem sample_filterBody_short (km minLength threshold percent : ℚ)
    (scan : List PopulatedPosition) (h : km < minLength) (e : Nat) :
    filterBody (sampleEnv km minLength threshold percent scan) (sampleFilter 0)
      ((sampleEnv km minLength threshold percent scan).config "lengthFilter.minLength")
      ((sampleEnv km minLength threshold percent scan).config "lengthFilter.populationThreshold")
      ((sampleEnv km minLength threshold percent scan).config "lengthFilter.beta") e =
      some false := by
  apply filterBody_of_short
  · exact sample_exclusion_disabled _ _
  · rw [sample_edgeKm, sample_minLength]; exact h

theorem sample_edgeTerms :
    edgeTerms (sampleEnv 150 100 7 50 sampleScan) (sampleFilter 0) 100 (1 / 2) 0 =
      [-400 / 9, 0, -800 / 9] := by
  simp only [edgeTerms, edgeScan, sampleScan, List.map, scoreTerm, sample_edgeKm]
  norm_num [sampleEnv, edgeAngle]

/-! ## Lemmas on the exclusion check as a pre-filter -/

theorem filterByLengthBody_of_excluded (env : Collaborators) (self : PopulationDensityFilter)
    (MIN_LENGTH : ℚ) (it : Nat)
    (h1 : isValidNode (edgeNode1 self it) = true) (h2 : isValidNode (edgeNode2 self it) = true)
    (hx : exclusionCheck self (edgeP1 self it) (edgeP2 self it) = some true) :
    filterByLengthBody env self MIN_LENGTH it = some true := by
  unfold edgeP1 edgeP2 edgeNode1 edgeNode2 at *
  unfold filterByLengthBody
  simp only [h1, h2, hx, Bool.and_self, if_true]

theorem filterByLengthBody_of_no_city (env : Collaborators) (self : PopulationDensityFilter)
    (MIN_LENGTH : ℚ) (it : Nat)
    (hc1 : (edgeNode1 self it).isCityNode = false) (hc2 : (edgeNode2 self it).isCityNode = false)
    (hx : exclusionCheck self (edgeP1 self it) (edgeP2 self it) = some false) :
    filterByLengthBody env self MIN_LENGTH it = some false := by
  unfold edgeP1 edgeP2 edgeNode1 edgeNode2 at *
  unfold filterByLengthBody
  simp only [hx, hc1, hc2, isCityNode, Bool.and_self, Bool.false_eq_true, if_false]
  split_ifs <;> rfl

theorem exclusionCheck_disabled (self : PopulationDensityFilter) (p1 p2 : GeographicPosition)
    (h : self._filterFlag ≠ 1) : exclusionCheck self p1 p2 = some false := by
  unfold exclusionCheck
  rw [if_neg h]

theorem exclusionCheck_isSome (self : PopulationDensityFilter) (p1 p2 : GeographicPosition)
    (hne : ∀ polygon ∈ self._polygons, ∀ ring ∈ polygon.coordinates, ring ≠ []) :
    ∃ b, exclusionCheck self p1 p2 = some b := by
  unfold exclusionCheck
  split_ifs with hf
  · obtain ⟨b, hb, -⟩ := polygonsLoop_spec p1 p2 self._polygons hne
    exact ⟨b, hb⟩
  · exact ⟨false, rfl⟩

/-- The body of `filter` for a filter object with the exclusion check against the
body for a filter object over the same topology without it. -/
theorem filterBody_exclusion_cases (env : Collaborators) (selfOn selfOff : PopulationDensityFilter)
    (hdb : selfOn._dbFilename = selfOff._dbFilename) (htopo : selfOn._baseTopo = selfOff._baseTopo)
    (hoff : selfOff._filterFlag ≠ 1) (MIN_LENGTH POPULATION_THRESHOLD BETA : ℚ) (it : Nat) :
    filterBody env selfOn MIN_LENGTH POPULATION_THRESHOLD BETA it =
      if isValidNode (edgeNode1 selfOn it) && isValidNode (edgeNode2 selfOn it) then
        match exclusionCheck selfOn (edgeP1 selfOn it) (edgeP2 selfOn it) with
        | none => none
        | some true => some true
        | some false => filterBody env selfOff MIN_LENGTH POPULATION_THRESHOLD BETA it
      else filterBody env selfOff MIN_LENGTH POPULATION_THRESHOLD BETA it := by
  obtain ⟨db, topo, flagOn, storeOn⟩ := selfOn
  obtain ⟨db', topo', flagOff, storeOff⟩ := selfOff
  simp only at hdb htopo hoff
  subst hdb
  subst htopo
  have hx : ∀ p1 p2, exclusionCheck ⟨db, topo, flagOff, storeOff⟩ p1 p2 = some false :=
    fun p1 p2 => exclusionCheck_disabled _ p1 p2 hoff
  unfold filterBody edgeP1 edgeP2 edgeNode1 edgeNode2
  simp only [hx]
  split_ifs <;> try rfl

/-- The body of `filterByLength` for a filter object with the exclusion check
against the body for a filter object over the same topology without it. -/
theorem filterByLengthBody_exclusion_cases (env : Collaborators)
    (selfOn selfOff : PopulationDensityFilter) (htopo : selfOn._baseTopo = selfOff._baseTopo)
    (hoff : selfOff._filterFlag ≠ 1) (MIN_LENGTH : ℚ) (it : Nat) :
    filterByLengthBody env selfOn MIN_LENGTH it =
      if isValidNode (edgeNode1 selfOn it) && isValidNode (edgeNode2 selfOn it) then
        match exclusionCheck selfOn (edgeP1 selfOn it) (edgeP2 selfOn it) with
        | none => none
        | some true => some true
        | some false => filterByLengthBody env selfOff MIN_LENGTH it
      else filterByLengthBody env selfOff MIN_LENGTH it := by
  obtain ⟨db, topo, flagOn, storeOn⟩ := selfOn
  obtain ⟨db', topo', flagOff, storeOff⟩ := selfOff
  simp only at htopo hoff
  subst htopo
  have hx : ∀ p1 p2, exclusionCheck ⟨db', topo, flagOff, storeOff⟩ p1 p2 = some false :=
    fun p1 p2 => exclusionCheck_disabled _ p1 p2 hoff
  unfold filterByLengthBody edgeP1 edgeP2 edgeNode1 edgeNode2
  simp only [hx]
  split_ifs <;> try rfl

theorem edgeLoop_eq_filter (body : Nat → Option Bool) :
    ∀ (edges marked out : List Nat), edgeLoop body edges marked = some out →
      out = marked ++ edges.filter (fun e => decide (body e = some true)) := by
  intro edges
  induction edges with
  | nil =>
    intro marked out h
    simp only [edgeLoop, Option.some.injEq] at h
    simp [h]
  | cons it rest ih =>
    intro marked out h
    unfold edgeLoop at h
    cases hb : body it with
    | none => rw [hb] at h; cases h
    | some b =>
      rw [hb] at h
      cases b with
      | true =>
        rw [ih _ _ h, List.filter_cons_of_pos (by simp [hb]), List.append_assoc]
        rfl
      | false =>
        rw [ih _ _ h, List.filter_cons_of_neg (by simp [hb])]

theorem eraseLoop_eq_filter :
    ∀ (marked : List Nat) (graph : Graph),
      (eraseLoop marked graph).edges = graph.edges.filter (fun x => decide (x ∉ marked)) ∧
      (eraseLoop marked graph).u = graph.u ∧ (eraseLoop marked graph).v = graph.v ∧
      (eraseLoop marked graph).nodes = graph.nodes := by
  intro marked
  induction marked with
  | nil => intro graph; simp [eraseLoop]
  | cons edge rest ih =>
    intro graph
    unfold eraseLoop
    obtain ⟨he, hu, hv, hn⟩ := ih (graph.erase edge)
    refine ⟨?_, hu, hv, hn⟩
    rw [he]
    simp only [Graph.erase, List.filter_filter]
    apply List.filter_congr
    intro x _
    by_cases h1 : x = edge <;> by_cases h2 : x ∈ rest <;> simp [h1, h2]

/-- Collect, then commit, for a traversal with the body `body`: the list of
marked edges and the graph after the commit. -/
theorem collect_commit_spec (body : Nat → Option Bool) (graph : Graph) (marked : List Nat)
    (hnodup : graph.edges.Nodup) (h : edgeLoop body graph.edges [] = some marked) :
    marked = graph.edges.filter (fun e => decide (body e = some true)) ∧ marked.Nodup ∧
    (eraseLoop marked graph).edges = graph.edges.filter (fun x => decide (x ∉ marked)) ∧
    (∀ x, x ∈ (eraseLoop marked graph).edges ↔ x ∈ graph.edges ∧ x ∉ marked) ∧
    (eraseLoop marked graph).u = graph.u ∧ (eraseLoop marked graph).v = graph.v ∧
    (eraseLoop marked graph).nodes = graph.nodes := by
  have hm := edgeLoop_eq_filter body _ _ _ h
  rw [List.nil_append] at hm
  obtain ⟨he, hu, hv, hn⟩ := eraseLoop_eq_filter marked graph
  exact ⟨hm, hm ▸ hnodup.filter _, he, eraseLoop_edges marked graph, hu, hv, hn⟩

theorem exclusion_cases_mono {bodyOn bodyOff : Option Bool} {valid : Bool}
    {check : Option Bool}
    (h : bodyOn = if valid then
        (match check with
        | none => none
        | some true => some true
        | some false => bodyOff)
      else bodyOff) :
    (bodyOn = some false → bodyOff = some false) ∧
    ((∃ b, check = some b) → (∃ b, bodyOff = some b) → ∃ b, bodyOn = some b) := by
  subst h
  cases valid with
  | false => exact ⟨fun h => h, fun _ h => h⟩
  | true =>
    cases check with
    | none =>
      refine ⟨fun h => ?_, fun h _ => ?_⟩
      · simp at h
      · obtain ⟨b, hb⟩ := h; cases hb
    | some c =>
      cases c with
      | true =>
        refine ⟨fun h => ?_, fun _ _ => ⟨true, rfl⟩⟩
        simp at h
      | false => exact ⟨fun h => h, fun _ h => h⟩

theorem landing_exclusion_enabled :
    exclusionCheck (landingFilter 1) (edgeP1 (landingFilter 1) 0) (edgeP2 (landingFilter 1) 0) =
      some true := by
  unfold exclusionCheck
  rw [if_pos (show (landingFilter 1)._filterFlag = 1 from rfl)]
  refine intersectsAnyPolygon_squareStore _ _ (Or.inl ⟨0, by simp [squareRing], ?_⟩)
  refine ⟨(0, 0), (0, 10), rfl, rfl, ?_⟩
  norm_num [doLineSegmentsIntersect, edgeP1, edgeP2, edgeNode1, edgeNode2, landingFilter,
    landingNodes]

/-! ## Lemmas on the loader -/

theorem coordsLoop_length (stod : String → Option ℚ) :
    ∀ (comps : List (String × PTree)) (coords out : List ℚ),
      coordsLoop stod comps coords = some out → out.length = coords.length + comps.length := by
  intro comps
  induction comps with
  | nil =>
    intro coords out h
    simp only [coordsLoop, Option.some.injEq] at h
    simp [h]
  | cons comp rest ih =>
    intro coords out h
    unfold coordsLoop at h
    cases hs : stod comp.2.data with
    | none => rw [hs] at h; cases h
    | some x =>
      rw [hs] at h
      rw [ih _ _ h]
      simp
      omega

theorem coordArrayLoop_cons (stod : String → Option ℚ) (coordArray : String × PTree)
    (rest : List (String × PTree)) (ring : List (ℚ × ℚ)) :
    coordArrayLoop stod (coordArray :: rest) ring =
      coordArrayLoop stod rest (ring ++ (entryPair stod coordArray.2).toList) := by
  unfold entryPair
  rw [coordArrayLoop]
  rcases hcs : coordArray.2.children with _ | ⟨a, _ | ⟨b, _ | ⟨c, more⟩⟩⟩
  · simp [coordsLoop]
  · cases ha : stod a.2.data <;> simp [coordsLoop, ha]
  · cases ha : stod a.2.data <;> cases hb : stod b.2.data <;> simp [coordsLoop, ha, hb]
  · cases hl : coordsLoop stod (a :: b :: c :: more) [] with
    | none => simp
    | some out =>
      have hlen := coordsLoop_length stod _ _ _ hl
      rcases out with _ | ⟨c0, _ | ⟨c1, _ | ⟨c2, tl⟩⟩⟩
      · simp
      · simp
      · simp at hlen
      · simp

theorem coordArrayLoop_eq (stod : String → Option ℚ) :
    ∀ (entries : List (String × PTree)) (ring : List (ℚ × ℚ)),
      coordArrayLoop stod entries ring =
        ring ++ entries.filterMap (fun entry => entryPair stod entry.2) := by
  intro entries
  induction entries with
  | nil => intro ring; simp [coordArrayLoop]
  | cons entry rest ih =>
    intro ring
    rw [coordArrayLoop_cons, ih]
    cases hp : entryPair stod entry.2 <;> simp [List.filterMap_cons, hp]

theorem ringArrayLoop_eq (stod : String → Option ℚ) :
    ∀ (ringArrays : List (String × PTree)) (polygon : Polygon),
      ringArrayLoop stod ringArrays polygon =
        ⟨polygon.coordinates ++
          (ringArrays.map (fun ringArray => specRing stod ringArray.2)).filter
            (fun ring => ring ≠ [])⟩ := by
  intro ringArrays
  induction ringArrays with
  | nil => intro polygon; simp [ringArrayLoop]
  | cons ringArray rest ih =>
    intro polygon
    unfold ringArrayLoop
    simp only []
    have hring : coordArrayLoop stod ringArray.2.children [] = specRing stod ringArray.2 := by
      rw [coordArrayLoop_eq, List.nil_append]; rfl
    rw [hring]
    by_cases hne : specRing stod ringArray.2 ≠ []
    · rw [if_pos hne, ih]
      simp [List.filter_cons, hne]
    · rw [if_neg hne, ih]
      simp [List.filter_cons, hne]

theorem polyArrayLoop_eq (stod : String → Option ℚ) :
    ∀ (polyArrays : List (String × PTree)) (polygon : Polygon),
      polyArrayLoop stod polyArrays polygon =
        ⟨polygon.coordinates ++
          (polyArrays.flatMap (fun polyArray =>
            polyArray.2.children.map (fun ringArray => specRing stod ringArray.2))).filter
            (fun ring => ring ≠ [])⟩ := by
  intro polyArrays
  induction polyArrays with
  | nil => intro polygon; simp [polyArrayLoop]
  | cons polyArray rest ih =>
    intro polygon
    unfold polyArrayLoop
    rw [ih, ringArrayLoop_eq]
    simp [List.flatMap_cons, List.filter_append, List.append_assoc]

theorem featureBody_eq (stod : String → Option ℚ) (feature : String × PTree)
    (polygons : List Polygon) :
    featureBody stod feature polygons = polygons ++ (specFeature stod feature.2).toList := by
  unfold featureBody specFeature
  cases hg : feature.2.get_child "geometry" with
  | none => simp
  | some geometry =>
    dsimp only
    cases ht : geometry.get_child "type" with
    | none => simp
    | some geomType =>
      dsimp only
      cases hc : geometry.get_child "coordinates" with
      | none => by_cases hm : geomType.data = "MultiPolygon" <;> simp [hm]
      | some coordinates =>
        have hpoly : polyArrayLoop stod coordinates.children ⟨[]⟩ = ⟨specRings stod coordinates⟩ := by
          rw [polyArrayLoop_eq]; rfl
        by_cases hm : geomType.data = "MultiPolygon"
        · by_cases hr : specRings stod coordinates = [] <;> simp [hm, hpoly, hr]
        · simp [hm]

theorem featureLoop_eq (stod : String → Option ℚ) :
    ∀ (features : List (String × PTree)) (polygons : List Polygon),
      featureLoop stod features polygons =
        polygons ++ features.filterMap (fun feature => specFeature stod feature.2) := by
  intro features
  induction features with
  | nil => intro polygons; simp [featureLoop]
  | cons feature rest ih =>
    intro polygons
    unfold featureLoop
    rw [ih, featureBody_eq]
    cases hf : specFeature stod feature.2 <;> simp [List.filterMap_cons, hf]

theorem specRings_nonempty (stod : String → Option ℚ) (coordinates : PTree) :
    ∀ ring ∈ specRings stod coordinates, ring ≠ [] := by
  intro ring hring
  unfold specRings at hring
  simpa using (List.mem_filter.mp hring).2

theorem specFeature_eq_some (stod : String → Option ℚ) (feature : PTree) (polygon : Polygon)
    (h : specFeature stod feature = some polygon) :
    ∃ geometry geomType coordinates, feature.get_child "geometry" = some geometry ∧
      geometry.get_child "type" = some geomType ∧ geomType.data = "MultiPolygon" ∧
      geometry.get_child "coordinates" = some coordinates ∧
      polygon.coordinates = specRings stod coordinates ∧ specRings stod coordinates ≠ [] := by
  unfold specFeature at h
  cases hg : feature.get_child "geometry" with
  | none => rw [hg] at h; cases h
  | some geometry =>
    rw [hg] at h
    dsimp only at h
    cases ht : geometry.get_child "type" with
    | none => rw [ht] at h; cases h
    | some geomType =>
      cases hc : geometry.get_child "coordinates" with
      | none => rw [ht, hc] at h; cases h
      | some coordinates =>
        rw [ht, hc] at h
        dsimp only at h
        split_ifs at h with hm
        cases h
        exact ⟨geometry, geomType, coordinates, rfl, ht, hm.1, hc, rfl, hm.2⟩

theorem loaded_rings_nonempty (stod : String → Option ℚ) (features : List (String × PTree)) :
    ∀ polygon ∈ features.filterMap (fun feature => specFeature stod feature.2),
      polygon.coordinates ≠ [] ∧ ∀ ring ∈ polygon.coordinates, ring ≠ [] := by
  intro polygon hp
  obtain ⟨feature, -, hf⟩ := List.mem_filterMap.mp hp
  obtain ⟨-, -, coordinates, -, -, -, -, hrings, hne⟩ := specFeature_eq_some stod _ _ hf
  rw [hrings]
  exact ⟨hne, specRings_nonempty stod coordinates⟩

theorem entryPair_of_not_numeric (stod : String → Option ℚ) (entry : PTree)
    (h : ∃ comp ∈ entry.children, stod comp.2.data = none) : entryPair stod entry = none := by
  obtain ⟨comp, hmem, hnone⟩ := h
  unfold entryPair
  rcases hcs : entry.children with _ | ⟨a, _ | ⟨b, _ | ⟨c, more⟩⟩⟩
  · rfl
  · rfl
  · rw [hcs] at hmem
    simp only [List.mem_cons, List.mem_singleton, List.not_mem_nil, or_false] at hmem
    rcases hmem with h | h
    · subst h; simp [hnone]
    · subst h
      cases ha : stod a.2.data <;> simp [hnone]
  · rfl

theorem specFeature_of_malformed (stod : String → Option ℚ) (feature : PTree)
    (h : feature.get_child "geometry" = none ∨
      ∃ geometry, feature.get_child "geometry" = some geometry ∧
        (geometry.get_child "type" = none ∨ geometry.get_child "coordinates" = none ∨
          (∃ geomType, geometry.get_child "type" = some geomType ∧
            geomType.data ≠ "MultiPolygon") ∨
          (∃ coordinates, geometry.get_child "coordinates" = some coordinates ∧
            coordinates.children = []))) :
    specFeature stod feature = none := by
  unfold specFeature
  rcases h with h | ⟨geometry, hg, h⟩
  · rw [h]
  · rw [hg]
    dsimp only
    rcases h with h | h | ⟨geomType, ht, hne⟩ | ⟨coordinates, hc, hnil⟩
    · rw [h]
    · rw [h]
      cases geometry.get_child "type" <;> rfl
    · rw [ht]
      cases geometry.get_child "coordinates" with
      | none => rfl
      | some coordinates => simp [hne]
    · rw [hc]
      cases geometry.get_child "type" with
      | none => rfl
      | some geomType => simp [specRings, hnil]

theorem filterMap_skip {α β : Type} (f : α → Option β) (pre post : List α) (bad : α)
    (h : f bad = none) : (pre ++ bad :: post).filterMap f = (pre ++ post).filterMap f := by
  simp [List.filterMap_append, List.filterMap_cons, h]

theorem sample_get_features : sampleTree.get_child "features" = some sampleFeatures := by
  simp [sampleTree, PTree.get_child, PTree.children]

theorem sample_loaded :
    sampleFeatures.children.filterMap (fun feature => specFeature sampleStod feature.2) =
      [⟨[[(0, 0), (0, 10), (10, 0)]]⟩] := by
  simp [sampleFeatures, sampleFeature, sampleArray, sampleLeaf, PTree.children, PTree.get_child,
    PTree.data, specFeature, specRings, specRing, entryPair, sampleStod]

theorem load_rings_nonempty (read_json : String → Option PTree) (stod : String → Option ℚ)
    (filename : String) :
    ∀ polygon ∈ (loadPolygonsFromJSON read_json stod [] filename)._polygons,
      ∀ ring ∈ polygon.coordinates, ring ≠ [] := by
  intro polygon hp
  unfold loadPolygonsFromJSON at hp
  cases hr : read_json filename with
  | none => rw [hr] at hp; cases hp
  | some root =>
    rw [hr] at hp
    dsimp only at hp
    cases hf : root.get_child "features" with
    | none => rw [hf] at hp; cases hp
    | some features =>
      rw [hf] at hp
      dsimp only at hp
      rw [featureLoop_eq, List.nil_append] at hp
      exact (loaded_rings_nonempty stod features.children polygon hp).2

theorem straddles_ne (point pi pj : ℚ × ℚ) (h : straddles point pi pj = true) :
    pj.2 - pi.2 ≠ 0 := by
  intro h0
  have heq : pj.2 = pi.2 := by linarith
  unfold straddles at h
  rw [heq] at h
  simp at h

theorem edgeTogglesChecked_eq (point pi pj : ℚ × ℚ) :
    edgeTogglesChecked point pi pj = some (edgeToggles point pi pj) := by
  unfold edgeTogglesChecked edgeToggles
  by_cases hs : straddles point pi pj = true
  · rw [if_pos hs, if_neg (straddles_ne point pi pj hs)]
    unfold straddles at hs
    rw [hs, Bool.true_and]
  · rw [if_neg hs]
    unfold straddles at hs
    rw [Bool.not_eq_true] at hs
    rw [hs, Bool.false_and]

theorem ringCheck_nil (p1 p2 : GeographicPosition) : ringCheck p1 p2 [] = none := by
  have hpos : 0 < sizeMinusOne ([] : List (ℚ × ℚ)) := by decide
  unfold ringCheck
  rw [ringEdgeLoop, if_pos hpos]
  rfl

/-! ## The claims -/

/-- C1: for a polygon store whose rings are all non-empty, `intersectsAnyPolygon`
returns a result, and the result is `true` exactly when some ring of some loaded
polygon is crossed by the segment on one of its edges `(ring[i], ring[i + 1])`,
`0 ≤ i < size - 1`, or on its closing edge, or contains the arithmetic midpoint
of the segment according to `isPointInPolygon`; for the empty store the result
is `false`. -/
theorem intersectsAnyPolygon_iff_ringHit (polygons : List Polygon) (p1 p2 : GeographicPosition)
    (hne : ∀ polygon ∈ polygons, ∀ ring ∈ polygon.coordinates, ring ≠ []) :
    (∃ b, intersectsAnyPolygon polygons p1 p2 = some b ∧
      (b = true ↔ ∃ polygon ∈ polygons, ∃ ring ∈ polygon.coordinates, RingHit p1 p2 ring)) ∧
    intersectsAnyPolygon [] p1 p2 = some false :=
  ⟨polygonsLoop_spec p1 p2 polygons hne, rfl⟩

theorem intersectsAnyPolygon_iff_ringHit_witness :
    (∀ polygon ∈ sampleStore, ∀ ring ∈ polygon.coordinates, ring ≠ []) ∧
    (∃ b, intersectsAnyPolygon sampleStore ⟨5, -5⟩ ⟨5, 15⟩ = some b ∧
      (b = true ↔ ∃ polygon ∈ sampleStore, ∃ ring ∈ polygon.coordinates,
        RingHit ⟨5, -5⟩ ⟨5, 15⟩ ring)) ∧
    intersectsAnyPolygon [] ⟨5, -5⟩ ⟨5, 15⟩ = some false :=
  ⟨by simp [sampleStore, squareRing],
    intersectsAnyPolygon_iff_ringHit sampleStore ⟨5, -5⟩ ⟨5, 15⟩
      (by simp [sampleStore, squareRing])⟩

/-- C2: `doLineSegmentsIntersect` is symmetric in its two segments. -/
theorem doLineSegmentsIntersect_symmetric (x1 y1 x2 y2 x3 y3 x4 y4 : ℚ) :
    doLineSegmentsIntersect x1 y1 x2 y2 x3 y3 x4 y4 =
      doLineSegmentsIntersect x3 y3 x4 y4 x1 y1 x2 y2 :=
  doLineSegmentsIntersect_swap x1 y1 x2 y2 x3 y3 x4 y4

/-- C3: `isPointInPolygon` returns a result for every point and ring, and the
result is the same for the ring rotated by any number `k` of positions. -/
theorem isPointInPolygon_rotate (point : ℚ × ℚ) (ring : List (ℚ × ℚ)) (k : Nat) :
    isPointInPolygon point ring = isPointInPolygon point (ring.rotate k) ∧
      ∃ b, isPointInPolygon point ring = some b :=
  ⟨(isPointInPolygon_rotate_aux point k ring).symm, isPointInPolygon_isSome point ring⟩

/-- C5: with a store that holds the single ring `[(0,0),(0,10),(10,10),(10,0)]`,
`intersectsAnyPolygon` reports the edge from `(5, -5)` to `(5, 15)` as
intersecting, and `doLineSegmentsIntersect` is `true` for exactly two of the four
edges of the ring, the closing edge included; both hold whether the pairs are
read as (latitude, longitude) or as (longitude, latitude). -/
theorem intersectsAnyPolygon_square_scenario :
    (intersectsAnyPolygon squareStore ⟨5, -5⟩ ⟨5, 15⟩ = some true ∧
      crossedEdges ⟨5, -5⟩ ⟨5, 15⟩ squareRing = 2) ∧
    (intersectsAnyPolygon squareStore ⟨-5, 5⟩ ⟨15, 5⟩ = some true ∧
      crossedEdges ⟨-5, 5⟩ ⟨15, 5⟩ squareRing = 2) := by
  refine ⟨⟨?_, ?_⟩, ?_, ?_⟩
  · refine intersectsAnyPolygon_squareStore _ _ (Or.inl ⟨0, by simp [squareRing], ?_⟩)
    exact ⟨(0, 0), (0, 10), rfl, rfl, by norm_num [doLineSegmentsIntersect]⟩
  · norm_num [crossedEdges, ringEdges, squareRing, List.filter, doLineSegmentsIntersect]
  · refine intersectsAnyPolygon_squareStore _ _ (Or.inl ⟨1, by simp [squareRing], ?_⟩)
    exact ⟨(0, 10), (10, 10), rfl, rfl, by norm_num [doLineSegmentsIntersect]⟩
  · norm_num [crossedEdges, ringEdges, squareRing, List.filter, doLineSegmentsIntersect]

/-- C6: an edge with an end node that is neither a city node nor a cable-landing
node is never marked by the body of `filter` or of `filterByLength`, and it is
an edge of the graph that either function leaves behind, whatever the length,
the population data, the filter flag and the polygon store. -/
theorem filters_keep_edge_of_other_kind (env : Collaborators) (self : PopulationDensityFilter)
    (it : Nat) (hin : it ∈ self._baseTopo.getGraph.edges)
    (hkind : isValidNode (edgeNode1 self it) = false ∨ isValidNode (edgeNode2 self it) = false) :
    (∀ MIN_LENGTH POPULATION_THRESHOLD BETA,
      filterBody env self MIN_LENGTH POPULATION_THRESHOLD BETA it = some false) ∧
    (∀ MIN_LENGTH, filterByLengthBody env self MIN_LENGTH it = some false) ∧
    (∀ graph, filter env self = some graph → it ∈ graph.edges) ∧
    (∀ graph, filterByLength env self = some graph → it ∈ graph.edges) := by
  have hnot : ¬ (isValidNode (edgeNode1 self it) = true ∧
      isValidNode (edgeNode2 self it) = true) := by
    rintro ⟨h1, h2⟩
    rcases hkind with h | h
    · rw [h] at h1; cases h1
    · rw [h] at h2; cases h2
  refine ⟨fun a b c => filterBody_of_not_valid env self a b c it hnot,
    fun a => filterByLengthBody_of_not_valid env self a it hnot, ?_, ?_⟩
  · intro graph h
    exact (filter_edges env self graph h it).mpr
      ⟨hin, filterBody_of_not_valid env self _ _ _ it hnot⟩
  · intro graph h
    exact (filterByLength_edges env self graph h it).mpr
      ⟨hin, filterByLengthBody_of_not_valid env self _ it hnot⟩

theorem filters_keep_edge_of_other_kind_witness :
    (1 ∈ (sampleFilter 1)._baseTopo.getGraph.edges ∧
      isValidNode (edgeNode2 (sampleFilter 1) 1) = false) ∧
    (∃ graph, filter (sampleEnv 5000 100 0 50 []) (sampleFilter 1) = some graph) ∧
    ((∀ MIN_LENGTH POPULATION_THRESHOLD BETA,
        filterBody (sampleEnv 5000 100 0 50 []) (sampleFilter 1) MIN_LENGTH POPULATION_THRESHOLD
          BETA 1 = some false) ∧
      (∀ MIN_LENGTH,
        filterByLengthBody (sampleEnv 5000 100 0 50 []) (sampleFilter 1) MIN_LENGTH 1 =
          some false) ∧
      (∀ graph, filter (sampleEnv 5000 100 0 50 []) (sampleFilter 1) = some graph →
        1 ∈ graph.edges) ∧
      (∀ graph, filterByLength (sampleEnv 5000 100 0 50 []) (sampleFilter 1) = some graph →
        1 ∈ graph.edges)) := by
  refine ⟨⟨by simp [sampleFilter, sampleGraph], rfl⟩, ?_,
    filters_keep_edge_of_other_kind (sampleEnv 5000 100 0 50 []) (sampleFilter 1) 1
      (by simp [sampleFilter, sampleGraph]) (Or.inr rfl)⟩
  apply filter_isSome
  intro e he
  have he3 : e = 0 ∨ e = 1 ∨ e = 2 := by simpa [sampleFilter, sampleGraph] using he
  rcases he3 with h | h | h
  · subst h
    exact ⟨true, filterBody_of_excluded _ _ _ _ _ 0 rfl rfl sample_exclusion_enabled⟩
  · subst h
    exact ⟨false, filterBody_of_not_valid _ _ _ _ _ 1 (fun hv => Bool.noConfusion hv.2)⟩
  · subst h
    exact ⟨true, filterBody_of_excluded _ _ _ _ _ 2 rfl rfl sample_exclusion_enabled⟩

/-- C7, as stated, fails: with exclusion filtering enabled, `filter` deletes the
edge 0 of the example graph, which crosses the square of the store, although
its length of 50 km is below the `minLength` of 100 km. -/
theorem filter_deletes_short_excluded_edge :
    0 ∈ (sampleFilter 1)._baseTopo.getGraph.edges ∧
    edgeKm (sampleEnv 50 100 0 50 []) (sampleFilter 1) 0 <
      (sampleEnv 50 100 0 50 []).config "lengthFilter.minLength" ∧
    ∃ graph, filter (sampleEnv 50 100 0 50 []) (sampleFilter 1) = some graph ∧
      0 ∉ graph.edges := by
  refine ⟨by simp [sampleFilter, sampleGraph], ?_, ?_⟩
  · rw [sample_edgeKm, sample_minLength]; norm_num
  · have hdef : ∃ graph, filter (sampleEnv 50 100 0 50 []) (sampleFilter 1) = some graph := by
      apply filter_isSome
      intro e he
      have he3 : e = 0 ∨ e = 1 ∨ e = 2 := by simpa [sampleFilter, sampleGraph] using he
      rcases he3 with h | h | h
      · subst h
        exact ⟨true, filterBody_of_excluded _ _ _ _ _ 0 rfl rfl sample_exclusion_enabled⟩
      · subst h
        exact ⟨false, filterBody_of_not_valid _ _ _ _ _ 1 (fun hv => Bool.noConfusion hv.2)⟩
      · subst h
        exact ⟨true, filterBody_of_excluded _ _ _ _ _ 2 rfl rfl sample_exclusion_enabled⟩
    obtain ⟨graph, hg⟩ := hdef
    refine ⟨graph, hg, ?_⟩
    intro hmem
    have hbody := ((filter_edges _ _ graph hg 0).mp hmem).2
    rw [filterBody_of_excluded (sampleEnv 50 100 0 50 []) (sampleFilter 1) _ _ _ 0 rfl rfl
      sample_exclusion_enabled] at hbody
    cases hbody

/-- C7, amended: an edge whose length `c_km` is below `minLength` and that the
exclusion check does not remove (the filter flag is not 1, or
`intersectsAnyPolygon` is `false` for the edge) is not marked by `filter` and is
an edge of the graph that `filter` leaves behind, for every population data;
an edge between city or landing nodes for which the flag is 1 and
`intersectsAnyPolygon` is `true` is marked and deleted whatever its length. -/
theorem filter_keeps_short_edge (env : Collaborators) (self : PopulationDensityFilter)
    (it : Nat) (hin : it ∈ self._baseTopo.getGraph.edges) :
    (edgeKm env self it < env.config "lengthFilter.minLength" →
      (self._filterFlag ≠ 1 ∨
        intersectsAnyPolygon self._polygons (edgeP1 self it) (edgeP2 self it) = some false) →
      filterBody env self (env.config "lengthFilter.minLength")
        (env.config "lengthFilter.populationThreshold") (env.config "lengthFilter.beta") it =
        some false ∧
      ∀ graph, filter env self = some graph → it ∈ graph.edges) ∧
    (isValidNode (edgeNode1 self it) = true → isValidNode (edgeNode2 self it) = true →
      self._filterFlag = 1 →
      intersectsAnyPolygon self._polygons (edgeP1 self it) (edgeP2 self it) = some true →
      filterBody env self (env.config "lengthFilter.minLength")
        (env.config "lengthFilter.populationThreshold") (env.config "lengthFilter.beta") it =
        some true ∧
      ∀ graph, filter env self = some graph → it ∉ graph.edges) := by
  constructor
  · intro hshort hx
    have hbody := filterBody_of_short env self (env.config "lengthFilter.minLength")
      (env.config "lengthFilter.populationThreshold") (env.config "lengthFilter.beta") it
      (exclusionCheck_of_not_removed self _ _ hx) hshort
    exact ⟨hbody, fun graph hg => (filter_edges env self graph hg it).mpr ⟨hin, hbody⟩⟩
  · intro h1 h2 hf hx
    have hbody := filterBody_of_excluded env self (env.config "lengthFilter.minLength")
      (env.config "lengthFilter.populationThreshold") (env.config "lengthFilter.beta") it h1 h2
      (exclusionCheck_of_removed self _ _ hf hx)
    refine ⟨hbody, fun graph hg hmem => ?_⟩
    have hfalse := ((filter_edges env self graph hg it).mp hmem).2
    rw [hbody] at hfalse
    cases hfalse

theorem filter_keeps_short_edge_witness :
    (0 ∈ (sampleFilter 0)._baseTopo.getGraph.edges ∧
      edgeKm (sampleEnv 50 100 0 50 []) (sampleFilter 0) 0 <
        (sampleEnv 50 100 0 50 []).config "lengthFilter.minLength" ∧
      (sampleFilter 0)._filterFlag ≠ 1) ∧
    (filterBody (sampleEnv 50 100 0 50 []) (sampleFilter 0)
        ((sampleEnv 50 100 0 50 []).config "lengthFilter.minLength")
        ((sampleEnv 50 100 0 50 []).config "lengthFilter.populationThreshold")
        ((sampleEnv 50 100 0 50 []).config "lengthFilter.beta") 0 = some false ∧
      ∀ graph, filter (sampleEnv 50 100 0 50 []) (sampleFilter 0) = some graph →
        0 ∈ graph.edges) ∧
    (filterBody (sampleEnv 50 100 0 50 []) (sampleFilter 1)
        ((sampleEnv 50 100 0 50 []).config "lengthFilter.minLength")
        ((sampleEnv 50 100 0 50 []).config "lengthFilter.populationThreshold")
        ((sampleEnv 50 100 0 50 []).config "lengthFilter.beta") 0 = some true ∧
      ∀ graph, filter (sampleEnv 50 100 0 50 []) (sampleFilter 1) = some graph →
        0 ∉ graph.edges) := by
  have hin0 : 0 ∈ (sampleFilter 0)._baseTopo.getGraph.edges := by simp [sampleFilter, sampleGraph]
  have hin1 : 0 ∈ (sampleFilter 1)._baseTopo.getGraph.edges := by simp [sampleFilter, sampleGraph]
  have hshort : edgeKm (sampleEnv 50 100 0 50 []) (sampleFilter 0) 0 <
      (sampleEnv 50 100 0 50 []).config "lengthFilter.minLength" := by
    rw [sample_edgeKm, sample_minLength]; norm_num
  have hflag : (sampleFilter 0)._filterFlag ≠ 1 := by decide
  have hhit : intersectsAnyPolygon (sampleFilter 1)._polygons (edgeP1 (sampleFilter 1) 0)
      (edgeP2 (sampleFilter 1) 0) = some true := by
    have h := sample_exclusion_enabled
    unfold exclusionCheck at h
    rw [if_pos (show (sampleFilter 1)._filterFlag = 1 from rfl)] at h
    exact h
  exact ⟨⟨hin0, hshort, hflag⟩,
    (filter_keeps_short_edge (sampleEnv 50 100 0 50 []) (sampleFilter 0) 0 hin0).1 hshort
      (Or.inl hflag),
    (filter_keeps_short_edge (sampleEnv 50 100 0 50 []) (sampleFilter 1) 0 hin1).2 rfl rfl rfl
      hhit⟩

/-- C8, as stated, fails: the edge 0 of the example graph, between two city
nodes, has a length of 50 km; with `minLength = 100`, a scan that yields no
candidate and the non-negative threshold 0, `filter` does not delete it. -/
theorem filter_keeps_fifty_km_edge :
    (isValidNode (edgeNode1 (sampleFilter 0) 0) = true ∧
      isValidNode (edgeNode2 (sampleFilter 0) 0) = true) ∧
    edgeKm (sampleEnv 50 100 0 50 []) (sampleFilter 0) 0 = 50 ∧
    (sampleEnv 50 100 0 50 []).config "lengthFilter.minLength" = 100 ∧
    edgeScan (sampleEnv 50 100 0 50 []) (sampleFilter 0) 0 = [] ∧
    0 ≤ (sampleEnv 50 100 0 50 []).config "lengthFilter.populationThreshold" ∧
    ∃ graph, filter (sampleEnv 50 100 0 50 []) (sampleFilter 0) = some graph ∧
      0 ∈ graph.edges := by
  refine ⟨⟨rfl, rfl⟩, sample_edgeKm _ _ _ _ _ _ _, sample_minLength _ _ _ _ _, rfl, ?_, ?_⟩
  · rw [sample_threshold]
  · have hbody := sample_filterBody_short 50 100 0 50 [] (by norm_num)
    obtain ⟨graph, hg⟩ := filter_isSome (sampleEnv 50 100 0 50 []) (sampleFilter 0)
      (fun e _ => ⟨false, hbody e⟩)
    exact ⟨graph, hg, (filter_edges _ _ graph hg 0).mpr
      ⟨by simp [sampleFilter, sampleGraph], hbody 0⟩⟩

/-- C8, amended: an edge of length 50 km between city or landing nodes that the
exclusion check does not remove is, with `minLength = 100`, exempt from the
population scoring and kept by `filter`, whatever the scan and the threshold;
an edge between such nodes whose length is not below `minLength` and whose scan
yields no candidate is marked and deleted by `filter` for every non-negative
`populationThreshold`. -/
theorem filter_empty_scan (env : Collaborators) (self : PopulationDensityFilter) (it : Nat)
    (hin : it ∈ self._baseTopo.getGraph.edges)
    (h1 : isValidNode (edgeNode1 self it) = true) (h2 : isValidNode (edgeNode2 self it) = true)
    (hx : self._filterFlag ≠ 1 ∨
      intersectsAnyPolygon self._polygons (edgeP1 self it) (edgeP2 self it) = some false) :
    (edgeKm env self it = 50 → env.config "lengthFilter.minLength" = 100 →
      filterBody env self (env.config "lengthFilter.minLength")
        (env.config "lengthFilter.populationThreshold") (env.config "lengthFilter.beta") it =
        some false ∧
      ∀ graph, filter env self = some graph → it ∈ graph.edges) ∧
    (¬ edgeKm env self it < env.config "lengthFilter.minLength" → edgeScan env self it = [] →
      0 ≤ env.config "lengthFilter.populationThreshold" →
      filterBody env self (env.config "lengthFilter.minLength")
        (env.config "lengthFilter.populationThreshold") (env.config "lengthFilter.beta") it =
        some true ∧
      ∀ graph, filter env self = some graph → it ∉ graph.edges) := by
  have hx' := exclusionCheck_of_not_removed self _ _ hx
  constructor
  · intro hkm hmin
    have hbody := filterBody_of_short env self (env.config "lengthFilter.minLength")
      (env.config "lengthFilter.populationThreshold") (env.config "lengthFilter.beta") it hx'
      (by rw [hkm, hmin]; norm_num)
    exact ⟨hbody, fun graph hg => (filter_edges env self graph hg it).mpr ⟨hin, hbody⟩⟩
  · intro hlong hscan hthr
    have hbody : filterBody env self (env.config "lengthFilter.minLength")
        (env.config "lengthFilter.populationThreshold") (env.config "lengthFilter.beta") it =
        some true := by
      rw [filterBody_of_long env self _ _ _ it h1 h2 hx' hlong, hscan]
      simp [filterScanLoop, hthr]
    refine ⟨hbody, fun graph hg hmem => ?_⟩
    have hfalse := ((filter_edges env self graph hg it).mp hmem).2
    rw [hbody] at hfalse
    cases hfalse

theorem filter_empty_scan_witness :
    (0 ∈ (sampleFilter 0)._baseTopo.getGraph.edges ∧
      isValidNode (edgeNode1 (sampleFilter 0) 0) = true ∧
      isValidNode (edgeNode2 (sampleFilter 0) 0) = true ∧
      (sampleFilter 0)._filterFlag ≠ 1) ∧
    (edgeKm (sampleEnv 50 100 7 50 []) (sampleFilter 0) 0 = 50 ∧
      (sampleEnv 50 100 7 50 []).config "lengthFilter.minLength" = 100 ∧
      filterBody (sampleEnv 50 100 7 50 []) (sampleFilter 0)
        ((sampleEnv 50 100 7 50 []).config "lengthFilter.minLength")
        ((sampleEnv 50 100 7 50 []).config "lengthFilter.populationThreshold")
        ((sampleEnv 50 100 7 50 []).config "lengthFilter.beta") 0 = some false ∧
      ∀ graph, filter (sampleEnv 50 100 7 50 []) (sampleFilter 0) = some graph →
        0 ∈ graph.edges) ∧
    (¬ edgeKm (sampleEnv 150 100 7 50 []) (sampleFilter 0) 0 <
        (sampleEnv 150 100 7 50 []).config "lengthFilter.minLength" ∧
      edgeScan (sampleEnv 150 100 7 50 []) (sampleFilter 0) 0 = [] ∧
      0 ≤ (sampleEnv 150 100 7 50 []).config "lengthFilter.populationThreshold" ∧
      filterBody (sampleEnv 150 100 7 50 []) (sampleFilter 0)
        ((sampleEnv 150 100 7 50 []).config "lengthFilter.minLength")
        ((sampleEnv 150 100 7 50 []).config "lengthFilter.populationThreshold")
        ((sampleEnv 150 100 7 50 []).config "lengthFilter.beta") 0 = some true ∧
      ∀ graph, filter (sampleEnv 150 100 7 50 []) (sampleFilter 0) = some graph →
        0 ∉ graph.edges) := by
  have hin : 0 ∈ (sampleFilter 0)._baseTopo.getGraph.edges := by simp [sampleFilter, sampleGraph]
  have hflag : (sampleFilter 0)._filterFlag ≠ 1 := by decide
  have hkm : edgeKm (sampleEnv 50 100 7 50 []) (sampleFilter 0) 0 = 50 := sample_edgeKm _ _ _ _ _ _ _
  have hmin : (sampleEnv 50 100 7 50 []).config "lengthFilter.minLength" = 100 :=
    sample_minLength _ _ _ _ _
  have hlong : ¬ edgeKm (sampleEnv 150 100 7 50 []) (sampleFilter 0) 0 <
      (sampleEnv 150 100 7 50 []).config "lengthFilter.minLength" := by
    rw [sample_edgeKm, sample_minLength]; norm_num
  have hthr : 0 ≤ (sampleEnv 150 100 7 50 []).config "lengthFilter.populationThreshold" := by
    rw [sample_threshold]; norm_num
  exact ⟨⟨hin, rfl, rfl, hflag⟩,
    ⟨hkm, hmin, (filter_empty_scan (sampleEnv 50 100 7 50 []) (sampleFilter 0) 0 hin rfl rfl
      (Or.inl hflag)).1 hkm hmin⟩,
    ⟨hlong, rfl, hthr, (filter_empty_scan (sampleEnv 150 100 7 50 []) (sampleFilter 0) 0 hin rfl
      rfl (Or.inl hflag)).2 hlong rfl hthr⟩⟩

/-- C9: for an edge between city or landing nodes that the exclusion check does
not remove and whose length is not below `minLength`, the loop of `filter`
stops after some number `k` of candidates with the score of the first `k`
candidates in scan order, where a candidate without population or outside the
inclusion region adds nothing and every other one adds
`popWeight * population * adoption ^ 2 * (minLength / c_km) ^ 2`; no shorter
prefix has a score above the threshold, and `k` is the whole scan unless the
score of the first `k` exceeds the threshold.  The edge is marked exactly when
that score is at most the threshold; it is kept exactly when some prefix of the
scan has a score above the threshold; an empty scan with a non-negative
threshold marks the edge.  The candidates are assumed to satisfy the assertion
`next._population >= 0.0` unless assertions are compiled out. -/
theorem filter_marks_iff_score (env : Collaborators) (self : PopulationDensityFilter)
    (MIN_LENGTH POPULATION_THRESHOLD BETA : ℚ) (it : Nat)
    (h1 : isValidNode (edgeNode1 self it) = true) (h2 : isValidNode (edgeNode2 self it) = true)
    (hx : self._filterFlag ≠ 1 ∨
      intersectsAnyPolygon self._polygons (edgeP1 self it) (edgeP2 self it) = some false)
    (hlong : ¬ edgeKm env self it < MIN_LENGTH)
    (hpop : env.NDEBUG = true ∨ ∀ q ∈ edgeScan env self it, 0 ≤ q._population) :
    (∃ k, k ≤ (edgeTerms env self MIN_LENGTH BETA it).length ∧
      filterScanLoop env MIN_LENGTH POPULATION_THRESHOLD BETA (edgeP1 self it) (edgeP2 self it)
        (edgeMidPoint env self it) (edgeAngle env self it) (edgeKm env self it)
        (edgeScan env self it) 0 = some (prefixScore (edgeTerms env self MIN_LENGTH BETA it) k) ∧
      (∀ j, j < k → prefixScore (edgeTerms env self MIN_LENGTH BETA it) j ≤ POPULATION_THRESHOLD) ∧
      (k < (edgeTerms env self MIN_LENGTH BETA it).length →
        POPULATION_THRESHOLD < prefixScore (edgeTerms env self MIN_LENGTH BETA it) k) ∧
      filterBody env self MIN_LENGTH POPULATION_THRESHOLD BETA it =
        some (decide (prefixScore (edgeTerms env self MIN_LENGTH BETA it) k ≤
          POPULATION_THRESHOLD))) ∧
    (filterBody env self MIN_LENGTH POPULATION_THRESHOLD BETA it = some false ↔
      ∃ j, j ≤ (edgeTerms env self MIN_LENGTH BETA it).length ∧
        POPULATION_THRESHOLD < prefixScore (edgeTerms env self MIN_LENGTH BETA it) j) ∧
    (filterBody env self MIN_LENGTH POPULATION_THRESHOLD BETA it = some true ↔
      ∀ j, j ≤ (edgeTerms env self MIN_LENGTH BETA it).length →
        prefixScore (edgeTerms env self MIN_LENGTH BETA it) j ≤ POPULATION_THRESHOLD) ∧
    (edgeScan env self it = [] → 0 ≤ POPULATION_THRESHOLD →
      filterBody env self MIN_LENGTH POPULATION_THRESHOLD BETA it = some true) := by
  obtain ⟨k, hk, hloop, hbefore, hstop, hbody⟩ :=
    filterBody_score env self MIN_LENGTH POPULATION_THRESHOLD BETA it h1 h2
      (exclusionCheck_of_not_removed self _ _ hx) hlong hpop
  have hkept : filterBody env self MIN_LENGTH POPULATION_THRESHOLD BETA it = some false ↔
      ∃ j, j ≤ (edgeTerms env self MIN_LENGTH BETA it).length ∧
        POPULATION_THRESHOLD < prefixScore (edgeTerms env self MIN_LENGTH BETA it) j := by
    rw [hbody]
    constructor
    · intro h
      refine ⟨k, hk, ?_⟩
      have hd : decide (prefixScore (edgeTerms env self MIN_LENGTH BETA it) k ≤
          POPULATION_THRESHOLD) = false := Option.some.inj h
      exact lt_of_not_le (of_decide_eq_false hd)
    · rintro ⟨j, hj, hgt⟩
      have hkj : k ≤ j := by
        by_contra hlt
        exact absurd (hbefore j (by omega)) (not_le_of_lt hgt)
      have hgtk : POPULATION_THRESHOLD < prefixScore (edgeTerms env self MIN_LENGTH BETA it) k := by
        rcases Nat.eq_or_lt_of_le hk with heq | hlt
        · have hjk : j = k := by omega
          rw [← hjk]; exact hgt
        · exact hstop hlt
      rw [decide_eq_false (not_le_of_lt hgtk)]
  have hmarked : filterBody env self MIN_LENGTH POPULATION_THRESHOLD BETA it = some true ↔
      ∀ j, j ≤ (edgeTerms env self MIN_LENGTH BETA it).length →
        prefixScore (edgeTerms env self MIN_LENGTH BETA it) j ≤ POPULATION_THRESHOLD := by
    constructor
    · intro h j hj
      by_contra hnot
      have hf := hkept.mpr ⟨j, hj, lt_of_not_le hnot⟩
      rw [h] at hf
      cases hf
    · intro hall
      rw [hbody, decide_eq_true (hall k hk)]
  refine ⟨⟨k, hk, hloop, hbefore, hstop, hbody⟩, hkept, hmarked, ?_⟩
  intro hscan hthr
  refine hmarked.mpr (fun j _ => ?_)
  have hnil : edgeTerms env self MIN_LENGTH BETA it = [] := by
    simp [edgeTerms, hscan]
  rw [hnil]
  simpa [prefixScore] using hthr

theorem filter_marks_iff_score_witness :
    (isValidNode (edgeNode1 (sampleFilter 0) 0) = true ∧
      isValidNode (edgeNode2 (sampleFilter 0) 0) = true ∧
      (sampleFilter 0)._filterFlag ≠ 1 ∧
      ¬ edgeKm (sampleEnv 150 100 7 50 sampleScan) (sampleFilter 0) 0 < 100 ∧
      ∀ q ∈ edgeScan (sampleEnv 150 100 7 50 sampleScan) (sampleFilter 0) 0, 0 ≤ q._population) ∧
    (filterBody (sampleEnv 150 100 7 50 sampleScan) (sampleFilter 0) 100 7 (1 / 2) 0 =
        some false ↔
      ∃ j, j ≤ (edgeTerms (sampleEnv 150 100 7 50 sampleScan) (sampleFilter 0) 100 (1 / 2)
          0).length ∧
        7 < prefixScore (edgeTerms (sampleEnv 150 100 7 50 sampleScan) (sampleFilter 0) 100
          (1 / 2) 0) j) ∧
    filterBody (sampleEnv 150 100 7 50 sampleScan) (sampleFilter 0) 100 7 (1 / 2) 0 =
      some true := by
  have hflag : (sampleFilter 0)._filterFlag ≠ 1 := by decide
  have hlong : ¬ edgeKm (sampleEnv 150 100 7 50 sampleScan) (sampleFilter 0) 0 < 100 := by
    rw [sample_edgeKm]; norm_num
  have hpop : ∀ q ∈ edgeScan (sampleEnv 150 100 7 50 sampleScan) (sampleFilter 0) 0,
      0 ≤ q._population := by
    intro q hq
    have hq3 : q ∈ sampleScan := hq
    simp only [sampleScan, List.mem_cons, List.mem_singleton, List.not_mem_nil, or_false] at hq3
    rcases hq3 with h | h | h <;> rw [h] <;> norm_num
  have hthm := filter_marks_iff_score (sampleEnv 150 100 7 50 sampleScan) (sampleFilter 0) 100 7
    (1 / 2) 0 rfl rfl (Or.inl hflag) hlong (Or.inr hpop)
  refine ⟨⟨rfl, rfl, hflag, hlong, hpop⟩, hthm.2.1, hthm.2.2.1.mpr ?_⟩
  rw [sample_edgeTerms]
  intro j hj
  have hj3 : j ≤ 3 := hj
  interval_cases j <;> norm_num [prefixScore]

/-- C10: for an edge between city or landing nodes with at least one city end
that the exclusion check does not remove, with `adoption` the mean of the
adoption fractions (percentage / 100) of the two countries when both ends are
city nodes and the fraction of the one city otherwise: the body of
`filterByLength` marks the edge exactly when `c_km > minLength * (1 + adoption)`
(a run with assertions compiled in has no result when `adoption < 1` fails), and
the edge is missing from the graph that `filterByLength` leaves behind exactly
when `c_km > minLength * (1 + adoption)`.  Between two city nodes with an
adoption of 50 percent each and `minLength = 1000` the edge is deleted exactly
when its length exceeds 1500 km. -/
theorem filterByLength_deletes_iff (env : Collaborators) (self : PopulationDensityFilter)
    (it : Nat) (hin : it ∈ self._baseTopo.getGraph.edges)
    (h1 : isValidNode (edgeNode1 self it) = true) (h2 : isValidNode (edgeNode2 self it) = true)
    (hcity : (edgeNode1 self it).isCityNode = true ∨ (edgeNode2 self it).isCityNode = true)
    (hx : self._filterFlag ≠ 1 ∨
      intersectsAnyPolygon self._polygons (edgeP1 self it) (edgeP2 self it) = some false) :
    (∀ MIN_LENGTH, filterByLengthBody env self MIN_LENGTH it =
      if !env.NDEBUG && !decide (adoptionFraction env (edgeNode1 self it) (edgeNode2 self it) < 1)
      then none
      else some (decide (edgeKm env self it >
        MIN_LENGTH * (1 + adoptionFraction env (edgeNode1 self it) (edgeNode2 self it))))) ∧
    (∀ graph, filterByLength env self = some graph →
      (it ∉ graph.edges ↔ edgeKm env self it > env.config "lengthFilter.minLength" *
        (1 + adoptionFraction env (edgeNode1 self it) (edgeNode2 self it)))) ∧
    ((edgeNode1 self it).isCityNode = true → (edgeNode2 self it).isCityNode = true →
      env.inetStat (edgeNode1 self it).country = 50 →
      env.inetStat (edgeNode2 self it).country = 50 →
      filterByLengthBody env self 1000 it = some (decide (edgeKm env self it > 1500)) ∧
      (env.config "lengthFilter.minLength" = 1000 → ∀ graph,
        filterByLength env self = some graph → (it ∉ graph.edges ↔ edgeKm env self it > 1500))) := by
  have hbody : ∀ MIN_LENGTH, filterByLengthBody env self MIN_LENGTH it =
      if !env.NDEBUG && !decide (adoptionFraction env (edgeNode1 self it) (edgeNode2 self it) < 1)
      then none
      else some (decide (edgeKm env self it >
        MIN_LENGTH * (1 + adoptionFraction env (edgeNode1 self it) (edgeNode2 self it)))) := by
    intro MIN_LENGTH
    rw [filterByLengthBody_of_city env self MIN_LENGTH it h1 h2 hcity
      (exclusionCheck_of_not_removed self _ _ hx)]
    rfl
  have hgraph : ∀ graph, filterByLength env self = some graph →
      (it ∉ graph.edges ↔ edgeKm env self it > env.config "lengthFilter.minLength" *
        (1 + adoptionFraction env (edgeNode1 self it) (edgeNode2 self it))) := by
    intro graph hg
    obtain ⟨b, hb⟩ := filterByLength_body_isSome env self graph hg it hin
    rw [filterByLength_edges env self graph hg it]
    rw [hbody] at hb ⊢
    split_ifs at hb ⊢ with ha
    · constructor
      · intro hnot
        by_contra hgt
        exact hnot ⟨hin, by rw [decide_eq_false hgt]⟩
      · rintro hgt ⟨-, hfalse⟩
        rw [decide_eq_true hgt] at hfalse
        cases hfalse
  refine ⟨hbody, hgraph, ?_⟩
  intro hc1 hc2 hs1 hs2
  have hadopt : adoptionFraction env (edgeNode1 self it) (edgeNode2 self it) = 1 / 2 := by
    simp only [adoptionFraction, hc1, hc2, hs1, hs2, Bool.and_self, if_true]
    norm_num
  have h1500 : (1000 : ℚ) * (1 + 1 / 2) = 1500 := by norm_num
  refine ⟨?_, ?_⟩
  · rw [hbody, hadopt, h1500]
    have hlt : decide ((1 / 2 : ℚ) < 1) = true := decide_eq_true (by norm_num)
    rw [hlt, Bool.not_true, Bool.and_false, if_neg Bool.false_ne_true]
  · intro hmin graph hg
    rw [hgraph graph hg, hadopt, hmin, h1500]

theorem filterByLength_deletes_iff_witness :
    (0 ∈ (sampleFilter 0)._baseTopo.getGraph.edges ∧
      isValidNode (edgeNode1 (sampleFilter 0) 0) = true ∧
      isValidNode (edgeNode2 (sampleFilter 0) 0) = true ∧
      (edgeNode1 (sampleFilter 0) 0).isCityNode = true ∧
      (edgeNode2 (sampleFilter 0) 0).isCityNode = true ∧
      (sampleFilter 0)._filterFlag ≠ 1 ∧
      (sampleEnv 1500 1000 0 50 []).inetStat (edgeNode1 (sampleFilter 0) 0).country = 50 ∧
      (sampleEnv 1500 1000 0 50 []).inetStat (edgeNode2 (sampleFilter 0) 0).country = 50) ∧
    filterByLengthBody (sampleEnv 1500 1000 0 50 []) (sampleFilter 0) 1000 0 = some false ∧
    filterByLengthBody (sampleEnv 1501 1000 0 50 []) (sampleFilter 0) 1000 0 = some true := by
  have hin : 0 ∈ (sampleFilter 0)._baseTopo.getGraph.edges := by simp [sampleFilter, sampleGraph]
  have hflag : (sampleFilter 0)._filterFlag ≠ 1 := by decide
  have hkept := ((filterByLength_deletes_iff (sampleEnv 1500 1000 0 50 []) (sampleFilter 0) 0 hin
    rfl rfl (Or.inl rfl) (Or.inl hflag)).2.2 rfl rfl rfl rfl).1
  have hgone := ((filterByLength_deletes_iff (sampleEnv 1501 1000 0 50 []) (sampleFilter 0) 0 hin
    rfl rfl (Or.inl rfl) (Or.inl hflag)).2.2 rfl rfl rfl rfl).1
  rw [sample_edgeKm] at hkept hgone
  refine ⟨⟨hin, rfl, rfl, rfl, rfl, hflag, rfl, rfl⟩, ?_, ?_⟩
  · rw [hkept, decide_eq_false (by norm_num)]
  · rw [hgone, decide_eq_true (by norm_num)]

/-- C11, as stated, fails: with exclusion filtering enabled, `filterByLength`
deletes the edge 0 of the example graph between two landing points, which
crosses the square of the store. -/
theorem filterByLength_deletes_excluded_landing_edge :
    0 ∈ (landingFilter 1)._baseTopo.getGraph.edges ∧
    ((edgeNode1 (landingFilter 1) 0).isSeaCableLandingPoint = true ∧
      (edgeNode1 (landingFilter 1) 0).isCityNode = false) ∧
    ((edgeNode2 (landingFilter 1) 0).isSeaCableLandingPoint = true ∧
      (edgeNode2 (landingFilter 1) 0).isCityNode = false) ∧
    ∃ graph, filterByLength (sampleEnv 50 100 0 50 []) (landingFilter 1) = some graph ∧
      0 ∉ graph.edges := by
  have hbody : ∀ MIN_LENGTH,
      filterByLengthBody (sampleEnv 50 100 0 50 []) (landingFilter 1) MIN_LENGTH 0 = some true :=
    fun MIN_LENGTH => filterByLengthBody_of_excluded _ (landingFilter 1) MIN_LENGTH 0 rfl rfl
      landing_exclusion_enabled
  have hin : 0 ∈ (landingFilter 1)._baseTopo.getGraph.edges := by simp [landingFilter]
  refine ⟨hin, ⟨rfl, rfl⟩, ⟨rfl, rfl⟩, ?_⟩
  obtain ⟨graph, hg⟩ := filterByLength_isSome (sampleEnv 50 100 0 50 []) (landingFilter 1)
    (fun e he => by
      have he0 : e = 0 := by simpa [landingFilter] using he
      subst he0
      exact ⟨true, hbody _⟩)
  refine ⟨graph, hg, fun hmem => ?_⟩
  have hfalse := ((filterByLength_edges _ _ graph hg 0).mp hmem).2
  rw [hbody] at hfalse
  cases hfalse

/-- C11, amended: an edge whose two end nodes are cable-landing nodes and not
city nodes, and that the exclusion check does not remove (the filter flag is
not 1, or `intersectsAnyPolygon` is `false` for the edge), is not marked by
`filterByLength` and is an edge of the graph that `filterByLength` leaves
behind, whatever its length, the adoption table and `minLength`; with the flag
1 and `intersectsAnyPolygon` `true` for the edge, the edge is marked and
deleted. -/
theorem filterByLength_skips_landing_edge (env : Collaborators) (self : PopulationDensityFilter)
    (it : Nat) (hin : it ∈ self._baseTopo.getGraph.edges)
    (hl1 : (edgeNode1 self it).isSeaCableLandingPoint = true)
    (hl2 : (edgeNode2 self it).isSeaCableLandingPoint = true)
    (hc1 : (edgeNode1 self it).isCityNode = false)
    (hc2 : (edgeNode2 self it).isCityNode = false) :
    ((self._filterFlag ≠ 1 ∨
        intersectsAnyPolygon self._polygons (edgeP1 self it) (edgeP2 self it) = some false) →
      (∀ MIN_LENGTH, filterByLengthBody env self MIN_LENGTH it = some false) ∧
      ∀ graph, filterByLength env self = some graph → it ∈ graph.edges) ∧
    (self._filterFlag = 1 →
      intersectsAnyPolygon self._polygons (edgeP1 self it) (edgeP2 self it) = some true →
      (∀ MIN_LENGTH, filterByLengthBody env self MIN_LENGTH it = some true) ∧
      ∀ graph, filterByLength env self = some graph → it ∉ graph.edges) := by
  constructor
  · intro hx
    have hbody : ∀ MIN_LENGTH, filterByLengthBody env self MIN_LENGTH it = some false :=
      fun MIN_LENGTH => filterByLengthBody_of_no_city env self MIN_LENGTH it hc1 hc2
        (exclusionCheck_of_not_removed self _ _ hx)
    exact ⟨hbody, fun graph hg => (filterByLength_edges env self graph hg it).mpr ⟨hin, hbody _⟩⟩
  · intro hf hx
    have hv1 : isValidNode (edgeNode1 self it) = true := by simp [isValidNode, hl1]
    have hv2 : isValidNode (edgeNode2 self it) = true := by simp [isValidNode, hl2]
    have hbody : ∀ MIN_LENGTH, filterByLengthBody env self MIN_LENGTH it = some true :=
      fun MIN_LENGTH => filterByLengthBody_of_excluded env self MIN_LENGTH it hv1 hv2
        (exclusionCheck_of_removed self _ _ hf hx)
    refine ⟨hbody, fun graph hg hmem => ?_⟩
    have hfalse := ((filterByLength_edges env self graph hg it).mp hmem).2
    rw [hbody] at hfalse
    cases hfalse

theorem filterByLength_skips_landing_edge_witness :
    (0 ∈ (landingFilter 0)._baseTopo.getGraph.edges ∧
      (edgeNode1 (landingFilter 0) 0).isSeaCableLandingPoint = true ∧
      (edgeNode2 (landingFilter 0) 0).isSeaCableLandingPoint = true ∧
      (edgeNode1 (landingFilter 0) 0).isCityNode = false ∧
      (edgeNode2 (landingFilter 0) 0).isCityNode = false ∧
      (landingFilter 0)._filterFlag ≠ 1) ∧
    ((∀ MIN_LENGTH,
        filterByLengthBody (sampleEnv 5000 100 0 50 []) (landingFilter 0) MIN_LENGTH 0 =
          some false) ∧
      ∀ graph, filterByLength (sampleEnv 5000 100 0 50 []) (landingFilter 0) = some graph →
        0 ∈ graph.edges) ∧
    ((∀ MIN_LENGTH,
        filterByLengthBody (sampleEnv 5000 100 0 50 []) (landingFilter 1) MIN_LENGTH 0 =
          some true) ∧
      ∀ graph, filterByLength (sampleEnv 5000 100 0 50 []) (landingFilter 1) = some graph →
        0 ∉ graph.edges) := by
  have hin0 : 0 ∈ (landingFilter 0)._baseTopo.getGraph.edges := by simp [landingFilter]
  have hin1 : 0 ∈ (landingFilter 1)._baseTopo.getGraph.edges := by simp [landingFilter]
  have hflag : (landingFilter 0)._filterFlag ≠ 1 := by decide
  have hhit : intersectsAnyPolygon (landingFilter 1)._polygons (edgeP1 (landingFilter 1) 0)
      (edgeP2 (landingFilter 1) 0) = some true := by
    have h := landing_exclusion_enabled
    unfold exclusionCheck at h
    rw [if_pos (show (landingFilter 1)._filterFlag = 1 from rfl)] at h
    exact h
  exact ⟨⟨hin0, rfl, rfl, rfl, rfl, hflag⟩,
    (filterByLength_skips_landing_edge (sampleEnv 5000 100 0 50 []) (landingFilter 0) 0 hin0
      rfl rfl rfl rfl).1 (Or.inl hflag),
    (filterByLength_skips_landing_edge (sampleEnv 5000 100 0 50 []) (landingFilter 1) 0 hin1
      rfl rfl rfl rfl).2 rfl hhit⟩

/-- C12: for two filter objects over the same topology and database, the second
with exclusion filtering disabled (flag not 1), and for each of `filter` and
`filterByLength`: every edge of the graph that a run of the first leaves behind
is an edge of the graph that the run of the second leaves behind, so that every
edge deleted without the exclusion check is deleted with it.  When the rings of
the store are non-empty, the run of the first has a result whenever the run of
the second has one. -/
theorem exclusion_is_prefilter (env : Collaborators) (selfOn selfOff : PopulationDensityFilter)
    (hdb : selfOn._dbFilename = selfOff._dbFilename) (htopo : selfOn._baseTopo = selfOff._baseTopo)
    (hoff : selfOff._filterFlag ≠ 1) :
    (∀ graphOn graphOff, filter env selfOn = some graphOn → filter env selfOff = some graphOff →
      ∀ x, x ∈ graphOn.edges → x ∈ graphOff.edges) ∧
    (∀ graphOn graphOff, filterByLength env selfOn = some graphOn →
      filterByLength env selfOff = some graphOff → ∀ x, x ∈ graphOn.edges → x ∈ graphOff.edges) ∧
    ((∀ polygon ∈ selfOn._polygons, ∀ ring ∈ polygon.coordinates, ring ≠ []) →
      (∀ graphOff, filter env selfOff = some graphOff → ∃ graphOn, filter env selfOn = some graphOn) ∧
      (∀ graphOff, filterByLength env selfOff = some graphOff →
        ∃ graphOn, filterByLength env selfOn = some graphOn)) := by
  have hcases := fun x => exclusion_cases_mono (filterBody_exclusion_cases env selfOn selfOff hdb
    htopo hoff (env.config "lengthFilter.minLength")
    (env.config "lengthFilter.populationThreshold") (env.config "lengthFilter.beta") x)
  have hcasesL := fun x => exclusion_cases_mono (filterByLengthBody_exclusion_cases env selfOn
    selfOff htopo hoff (env.config "lengthFilter.minLength") x)
  refine ⟨?_, ?_, ?_⟩
  · intro graphOn graphOff hon hof x hx
    obtain ⟨hin, hbody⟩ := (filter_edges env selfOn graphOn hon x).mp hx
    exact (filter_edges env selfOff graphOff hof x).mpr ⟨htopo ▸ hin, (hcases x).1 hbody⟩
  · intro graphOn graphOff hon hof x hx
    obtain ⟨hin, hbody⟩ := (filterByLength_edges env selfOn graphOn hon x).mp hx
    exact (filterByLength_edges env selfOff graphOff hof x).mpr
      ⟨htopo ▸ hin, (hcasesL x).1 hbody⟩
  · intro hne
    constructor
    · intro graphOff hof
      apply filter_isSome
      intro e he
      exact (hcases e).2 (exclusionCheck_isSome selfOn _ _ hne)
        (filter_body_isSome env selfOff graphOff hof e (htopo ▸ he))
    · intro graphOff hof
      apply filterByLength_isSome
      intro e he
      exact (hcasesL e).2 (exclusionCheck_isSome selfOn _ _ hne)
        (filterByLength_body_isSome env selfOff graphOff hof e (htopo ▸ he))

theorem exclusion_is_prefilter_witness :
    ((sampleFilter 1)._dbFilename = (sampleFilter 0)._dbFilename ∧
      (sampleFilter 1)._baseTopo = (sampleFilter 0)._baseTopo ∧
      (sampleFilter 0)._filterFlag ≠ 1 ∧
      ∀ polygon ∈ (sampleFilter 1)._polygons, ∀ ring ∈ polygon.coordinates, ring ≠ []) ∧
    (∃ graphOn graphOff, filter (sampleEnv 50 100 0 50 []) (sampleFilter 1) = some graphOn ∧
      filter (sampleEnv 50 100 0 50 []) (sampleFilter 0) = some graphOff ∧
      ∀ x, x ∈ graphOn.edges → x ∈ graphOff.edges) := by
  have hflag : (sampleFilter 0)._filterFlag ≠ 1 := by decide
  have hne : ∀ polygon ∈ (sampleFilter 1)._polygons, ∀ ring ∈ polygon.coordinates, ring ≠ [] := by
    simp [sampleFilter, squareStore, squareRing]
  have hthm := exclusion_is_prefilter (sampleEnv 50 100 0 50 []) (sampleFilter 1) (sampleFilter 0)
    rfl rfl hflag
  obtain ⟨graphOff, hof⟩ := filter_isSome (sampleEnv 50 100 0 50 []) (sampleFilter 0)
    (fun e _ => ⟨false, sample_filterBody_short 50 100 0 50 [] (by norm_num) e⟩)
  obtain ⟨graphOn, hon⟩ := (hthm.2.2 hne).1 graphOff hof
  exact ⟨⟨rfl, rfl, hflag, hne⟩, graphOn, graphOff, hon, hof, hthm.1 graphOn graphOff hon hof⟩

/-- C13: in a run of `filter` or of `filterByLength` over a graph whose edge
iteration reports every edge once, the list of marked edges is the list of the
edges for which the body, evaluated for the graph as it was before the run,
pushes the edge, in the order of the traversal and without duplicates; the run
leaves behind the graph whose edges are the edges from before the run that are
not marked, in their order, with the same end nodes for every edge and the
same nodes. -/
theorem filters_collect_then_commit (env : Collaborators) (self : PopulationDensityFilter)
    (hnodup : self._baseTopo.getGraph.edges.Nodup) :
    (∀ marked, filterMarks env self = some marked →
      marked = self._baseTopo.getGraph.edges.filter (fun e => decide
        (filterBody env self (env.config "lengthFilter.minLength")
          (env.config "lengthFilter.populationThreshold") (env.config "lengthFilter.beta") e =
          some true)) ∧
      marked.Nodup ∧
      ∃ graph, filter env self = some graph ∧
        graph.edges = self._baseTopo.getGraph.edges.filter (fun x => decide (x ∉ marked)) ∧
        (∀ x, x ∈ graph.edges ↔ x ∈ self._baseTopo.getGraph.edges ∧ x ∉ marked) ∧
        graph.u = self._baseTopo.getGraph.u ∧ graph.v = self._baseTopo.getGraph.v ∧
        graph.nodes = self._baseTopo.getGraph.nodes) ∧
    (∀ marked, filterByLengthMarks env self = some marked →
      marked = self._baseTopo.getGraph.edges.filter (fun e => decide
        (filterByLengthBody env self (env.config "lengthFilter.minLength") e = some true)) ∧
      marked.Nodup ∧
      ∃ graph, filterByLength env self = some graph ∧
        graph.edges = self._baseTopo.getGraph.edges.filter (fun x => decide (x ∉ marked)) ∧
        (∀ x, x ∈ graph.edges ↔ x ∈ self._baseTopo.getGraph.edges ∧ x ∉ marked) ∧
        graph.u = self._baseTopo.getGraph.u ∧ graph.v = self._baseTopo.getGraph.v ∧
        graph.nodes = self._baseTopo.getGraph.nodes) := by
  constructor
  · intro marked hm
    obtain ⟨h1, h2, h3, h4, h5, h6, h7⟩ :=
      collect_commit_spec _ self._baseTopo.getGraph marked hnodup hm
    refine ⟨h1, h2, eraseLoop marked self._baseTopo.getGraph, ?_, h3, h4, h5, h6, h7⟩
    unfold filter
    rw [hm]
  · intro marked hm
    obtain ⟨h1, h2, h3, h4, h5, h6, h7⟩ :=
      collect_commit_spec _ self._baseTopo.getGraph marked hnodup hm
    refine ⟨h1, h2, eraseLoop marked self._baseTopo.getGraph, ?_, h3, h4, h5, h6, h7⟩
    unfold filterByLength
    rw [hm]

theorem filters_collect_then_commit_witness :
    (sampleFilter 1)._baseTopo.getGraph.edges.Nodup ∧
    ∃ marked graph, filterMarks (sampleEnv 50 100 0 50 []) (sampleFilter 1) = some marked ∧
      marked = [0, 2] ∧ marked.Nodup ∧
      filter (sampleEnv 50 100 0 50 []) (sampleFilter 1) = some graph ∧
      graph.edges = [1] ∧ graph.nodes = [0, 1, 2, 3] := by
  have hnodup : (sampleFilter 1)._baseTopo.getGraph.edges.Nodup := by
    simp [sampleFilter, sampleGraph]
  have hb0 := filterBody_of_excluded (sampleEnv 50 100 0 50 []) (sampleFilter 1)
    ((sampleEnv 50 100 0 50 []).config "lengthFilter.minLength")
    ((sampleEnv 50 100 0 50 []).config "lengthFilter.populationThreshold")
    ((sampleEnv 50 100 0 50 []).config "lengthFilter.beta") 0 rfl rfl sample_exclusion_enabled
  have hb1 := filterBody_of_not_valid (sampleEnv 50 100 0 50 []) (sampleFilter 1)
    ((sampleEnv 50 100 0 50 []).config "lengthFilter.minLength")
    ((sampleEnv 50 100 0 50 []).config "lengthFilter.populationThreshold")
    ((sampleEnv 50 100 0 50 []).config "lengthFilter.beta") 1 (fun hv => Bool.noConfusion hv.2)
  have hb2 := filterBody_of_excluded (sampleEnv 50 100 0 50 []) (sampleFilter 1)
    ((sampleEnv 50 100 0 50 []).config "lengthFilter.minLength")
    ((sampleEnv 50 100 0 50 []).config "lengthFilter.populationThreshold")
    ((sampleEnv 50 100 0 50 []).config "lengthFilter.beta") 2 rfl rfl sample_exclusion_enabled
  obtain ⟨marked, hm⟩ : ∃ marked,
      filterMarks (sampleEnv 50 100 0 50 []) (sampleFilter 1) = some marked := by
    apply edgeLoop_isSome
    intro e he
    have he3 : e = 0 ∨ e = 1 ∨ e = 2 := by simpa [sampleFilter, sampleGraph] using he
    rcases he3 with h | h | h
    · subst h; exact ⟨true, hb0⟩
    · subst h; exact ⟨false, hb1⟩
    · subst h; exact ⟨true, hb2⟩
  obtain ⟨hfilter, hnd, graph, hg, hedges, -, -, -, hnodes⟩ :=
    (filters_collect_then_commit (sampleEnv 50 100 0 50 []) (sampleFilter 1) hnodup).1 marked hm
  have hedges0 : (sampleFilter 1)._baseTopo.getGraph.edges = [0, 1, 2] := rfl
  have hmarked : marked = [0, 2] := by
    rw [hfilter, hedges0]
    simp [List.filter, hb0, hb1, hb2]
  refine ⟨hnodup, marked, graph, hm, hmarked, hnd, hg, ?_, hnodes⟩
  rw [hedges, hedges0, hmarked]
  simp [List.filter]

/-- C14: when the resource is parsed and has a top-level child `"features"`,
`loadPolygonsFromJSON` does not throw and appends to `_polygons`, in document
order, one polygon for each feature from which the specification imports one.
Every polygon it appends has at least one ring and every ring of it has at
least one pair.  A feature contributes a polygon only if its geometry has the
type `"MultiPolygon"`, and then at most one, whose rings are the non-empty
rings read from its coordinates; the loop that reads a ring keeps, in document
order, exactly the pairs of the entries with exactly two components that are
both numeric. -/
theorem loadPolygonsFromJSON_retains (read_json : String → Option PTree)
    (stod : String → Option ℚ) (polygons : List Polygon) (filename : String)
    (root features : PTree) (hroot : read_json filename = some root)
    (hfeat : root.get_child "features" = some features) :
    (loadPolygonsFromJSON read_json stod polygons filename).thrown = false ∧
    (loadPolygonsFromJSON read_json stod polygons filename)._polygons =
      polygons ++ features.children.filterMap (fun feature => specFeature stod feature.2) ∧
    (∀ polygon ∈ features.children.filterMap (fun feature => specFeature stod feature.2),
      polygon.coordinates ≠ [] ∧ ∀ ring ∈ polygon.coordinates, ring ≠ []) ∧
    (∀ feature polygon, specFeature stod feature = some polygon →
      ∃ geometry geomType coordinates, feature.get_child "geometry" = some geometry ∧
        geometry.get_child "type" = some geomType ∧ geomType.data = "MultiPolygon" ∧
        geometry.get_child "coordinates" = some coordinates ∧
        polygon.coordinates = specRings stod coordinates) ∧
    (∀ ringArray : PTree, coordArrayLoop stod ringArray.children [] =
      ringArray.children.filterMap (fun entry => entryPair stod entry.2)) ∧
    (∀ (entry : PTree) (x y : ℚ), entryPair stod entry = some (x, y) ↔
      ∃ a b, entry.children = [a, b] ∧ stod a.2.data = some x ∧ stod b.2.data = some y) := by
  refine ⟨?_, ?_, loaded_rings_nonempty stod features.children, ?_, ?_, ?_⟩
  · simp [loadPolygonsFromJSON, hroot, hfeat]
  · simp [loadPolygonsFromJSON, hroot, hfeat, featureLoop_eq]
  · intro feature polygon h
    obtain ⟨g, t, c, h1, h2, h3, h4, h5, -⟩ := specFeature_eq_some stod feature polygon h
    exact ⟨g, t, c, h1, h2, h3, h4, h5⟩
  · intro ringArray
    rw [coordArrayLoop_eq, List.nil_append]
  · intro entry x y
    unfold entryPair
    rcases entry.children with _ | ⟨a, _ | ⟨b, _ | ⟨c, more⟩⟩⟩
    · simp
    · simp
    · constructor
      · intro h
        cases ha : stod a.2.data with
        | none => simp [ha] at h
        | some x0 =>
          cases hb : stod b.2.data with
          | none => simp [ha, hb] at h
          | some y0 =>
            simp only [ha, hb, Option.some.injEq, Prod.mk.injEq] at h
            exact ⟨a, b, rfl, by rw [ha, h.1], by rw [hb, h.2]⟩
      · rintro ⟨a0, b0, hab, hx, hy⟩
        simp only [List.cons.injEq, and_true] at hab
        obtain ⟨rfl, rfl⟩ := hab
        simp [hx, hy]
    · simp

theorem loadPolygonsFromJSON_retains_witness :
    ((fun _ : String => some sampleTree) "filter_data/mountainRanges.json" = some sampleTree ∧
      sampleTree.get_child "features" = some sampleFeatures) ∧
    (loadPolygonsFromJSON (fun _ => some sampleTree) sampleStod []
      "filter_data/mountainRanges.json").thrown = false ∧
    (loadPolygonsFromJSON (fun _ => some sampleTree) sampleStod []
      "filter_data/mountainRanges.json")._polygons = [⟨[[(0, 0), (0, 10), (10, 0)]]⟩] := by
  have hthm := loadPolygonsFromJSON_retains (fun _ => some sampleTree) sampleStod []
    "filter_data/mountainRanges.json" sampleTree sampleFeatures rfl sample_get_features
  refine ⟨⟨rfl, sample_get_features⟩, hthm.1, ?_⟩
  rw [hthm.2.1, sample_loaded, List.nil_append]

/-- C15: `loadPolygonsFromJSON` throws exactly when `read_json` throws or the
tree has no top-level child `"features"`, and then `_polygons` is as before the
call.  A feature without geometry, without type, without coordinates, with a
type other than `"MultiPolygon"` or with coordinates without children does not
make the load throw and the load stores what it stores for the other features;
a coordinate entry with a component that `std::stod` rejects leaves the ring as
the other entries make it. -/
theorem loadPolygonsFromJSON_throws_iff (read_json : String → Option PTree)
    (stod : String → Option ℚ) (polygons : List Polygon) (filename : String) :
    ((loadPolygonsFromJSON read_json stod polygons filename).thrown = true ↔
      read_json filename = none ∨
        ∃ root, read_json filename = some root ∧ root.get_child "features" = none) ∧
    ((loadPolygonsFromJSON read_json stod polygons filename).thrown = true →
      (loadPolygonsFromJSON read_json stod polygons filename)._polygons = polygons) ∧
    (∀ (root features : PTree) (pre post : List (String × PTree)) (bad : String × PTree),
      read_json filename = some root → root.get_child "features" = some features →
      features.children = pre ++ bad :: post →
      (bad.2.get_child "geometry" = none ∨
        ∃ geometry, bad.2.get_child "geometry" = some geometry ∧
          (geometry.get_child "type" = none ∨ geometry.get_child "coordinates" = none ∨
            (∃ geomType, geometry.get_child "type" = some geomType ∧
              geomType.data ≠ "MultiPolygon") ∨
            (∃ coordinates, geometry.get_child "coordinates" = some coordinates ∧
              coordinates.children = []))) →
      (loadPolygonsFromJSON read_json stod polygons filename).thrown = false ∧
      (loadPolygonsFromJSON read_json stod polygons filename)._polygons =
        featureLoop stod (pre ++ post) polygons) ∧
    (∀ (pre post : List (String × PTree)) (bad : String × PTree) (ring : List (ℚ × ℚ)),
      (∃ comp ∈ bad.2.children, stod comp.2.data = none) →
      coordArrayLoop stod (pre ++ bad :: post) ring = coordArrayLoop stod (pre ++ post) ring) := by
  refine ⟨?_, ?_, ?_, ?_⟩
  · unfold loadPolygonsFromJSON
    cases hr : read_json filename with
    | none => simp
    | some root =>
      dsimp only
      cases hf : root.get_child "features" with
      | none => simp [hf]
      | some features => simp [hf]
  · unfold loadPolygonsFromJSON
    cases hr : read_json filename with
    | none => simp
    | some root =>
      dsimp only
      cases hf : root.get_child "features" with
      | none => simp
      | some features => simp
  · intro root features pre post bad hr hf hch hbad
    have hnone := specFeature_of_malformed stod bad.2 hbad
    unfold loadPolygonsFromJSON
    rw [hr]
    dsimp only
    rw [hf]
    dsimp only
    refine ⟨rfl, ?_⟩
    rw [hch, featureLoop_eq, featureLoop_eq,
      filterMap_skip (fun feature => specFeature stod feature.2) pre post bad hnone]
  · intro pre post bad ring hbad
    have hnone := entryPair_of_not_numeric stod bad.2 hbad
    rw [coordArrayLoop_eq, coordArrayLoop_eq,
      filterMap_skip (fun entry => entryPair stod entry.2) pre post bad hnone]

theorem loadPolygonsFromJSON_throws_iff_witness :
    ((loadPolygonsFromJSON (fun _ => none) sampleStod [] "missing.json").thrown = true ∧
      (loadPolygonsFromJSON (fun _ => none) sampleStod [] "missing.json")._polygons = []) ∧
    ((loadPolygonsFromJSON (fun _ => some sampleTree) sampleStod []
        "filter_data/mountainRanges.json").thrown = false ∧
      (loadPolygonsFromJSON (fun _ => some sampleTree) sampleStod []
        "filter_data/mountainRanges.json")._polygons =
        featureLoop sampleStod [sampleFeature "MultiPolygon", sampleFeature "Point"] []) := by
  have hfail := loadPolygonsFromJSON_throws_iff (fun _ => none) sampleStod [] "missing.json"
  have hthrown := hfail.1.mpr (Or.inl rfl)
  refine ⟨⟨hthrown, hfail.2.1 hthrown⟩, ?_⟩
  exact (loadPolygonsFromJSON_throws_iff (fun _ => some sampleTree) sampleStod []
    "filter_data/mountainRanges.json").2.2.1 sampleTree sampleFeatures
    [sampleFeature "MultiPolygon"] [sampleFeature "Point"] ("", .mk "" [("id", .mk "7" [])])
    rfl sample_get_features rfl
    (Or.inl (by simp [PTree.get_child, PTree.children]))

/-- C18: for the ring `[(x0, y0), (x0, y1), (x1, y1), (x1, y0)]` of an axis-aligned
rectangle with `x0 < x1` and `y0 < y1`, `isPointInPolygon` returns `true` for the
point `(px, py)` exactly when `x0 ≤ px < x1` and `y0 ≤ py < y1`: the box is
half-open, with the lower and the left side inside and the upper and the right
side outside. -/
theorem isPointInPolygon_rectangle (x0 y0 x1 y1 px py : ℚ) (hx : x0 < x1) (hy : y0 < y1) :
    isPointInPolygon (px, py) (rectangleRing x0 y0 x1 y1) =
      some (decide (x0 ≤ px ∧ px < x1 ∧ y0 ≤ py ∧ py < y1)) := by
  unfold rectangleRing
  rw [isPointInPolygon_cons]
  simp only [toggleWalk, edgeToggles, List.getLast_cons_cons, List.getLast_singleton, sub_self,
    zero_mul, zero_div, zero_add, gt_iff_lt]
  by_cases h1 : py < y0 <;> by_cases h2 : py < y1 <;> by_cases h3 : px < x0 <;>
    by_cases h4 : px < x1 <;> simp [h1, h2, h3, h4] <;> (try constructor) <;> linarith

theorem isPointInPolygon_rectangle_witness :
    ((0 : ℚ) < 10 ∧ (0 : ℚ) < 10) ∧
    isPointInPolygon (5, 5) (rectangleRing 0 0 10 10) = some true ∧
    isPointInPolygon (0, 0) (rectangleRing 0 0 10 10) = some true ∧
    isPointInPolygon (10, 5) (rectangleRing 0 0 10 10) = some false ∧
    isPointInPolygon (5, 10) (rectangleRing 0 0 10 10) = some false ∧
    isPointInPolygon (12, 5) (rectangleRing 0 0 10 10) = some false := by
  have h : (0 : ℚ) < 10 := by norm_num
  refine ⟨⟨h, h⟩, ?_, ?_, ?_, ?_, ?_⟩
  · rw [isPointInPolygon_rectangle 0 0 10 10 5 5 h h]; norm_num
  · rw [isPointInPolygon_rectangle 0 0 10 10 0 0 h h]; norm_num
  · rw [isPointInPolygon_rectangle 0 0 10 10 10 5 h h]; norm_num
  · rw [isPointInPolygon_rectangle 0 0 10 10 5 10 h h]; norm_num
  · rw [isPointInPolygon_rectangle 0 0 10 10 12 5 h h]; norm_num

/-- C20: for a polygon store whose rings are all non-empty, `intersectsAnyPolygon`
has a result, so that no access `ring[i]`, `ring[i + 1]`, `ring.back()`,
`ring.front()`, `polygon[i]` or `polygon[j]` is out of range; the store that
`loadPolygonsFromJSON` builds is such a store.  For a non-empty ring every index
`i` below `size - 1` has `ring[i]` and `ring[i + 1]` in range and `back()` and
`front()` exist; the edge loop makes no iteration for a ring of one point;
`isPointInPolygon` has a result for every ring; the division of its condition
is evaluated only when the straddle test holds, and then its divisor is not
zero.  For an empty ring the body of the loop over the rings has no result. -/
theorem intersectsAnyPolygon_total (polygons : List Polygon) (p1 p2 : GeographicPosition)
    (hne : ∀ polygon ∈ polygons, ∀ ring ∈ polygon.coordinates, ring ≠ []) :
    (∃ b, intersectsAnyPolygon polygons p1 p2 = some b) ∧
    (∀ (read_json : String → Option PTree) (stod : String → Option ℚ) (filename : String),
      ∃ b, intersectsAnyPolygon (loadPolygonsFromJSON read_json stod [] filename)._polygons
        p1 p2 = some b) ∧
    (∀ ring : List (ℚ × ℚ), ring ≠ [] →
      (∀ i, i < sizeMinusOne ring → (∃ a, ring[i]? = some a) ∧ ∃ b, ring[i + 1]? = some b) ∧
      (∃ b, ring.getLast? = some b) ∧ (∃ f, ring.head? = some f) ∧
      ∃ b, ringCheck p1 p2 ring = some b) ∧
    (∀ p : ℚ × ℚ, sizeMinusOne [p] = 0 ∧
      ringEdgeLoop p1 p2 [p] (sizeMinusOne [p] + 1) 0 = some false) ∧
    (∀ (point : ℚ × ℚ) (ring : List (ℚ × ℚ)), ∃ b, isPointInPolygon point ring = some b) ∧
    (∀ point pi pj : ℚ × ℚ,
      (straddles point pi pj = true → pj.2 - pi.2 ≠ 0) ∧
      edgeTogglesChecked point pi pj = some (edgeToggles point pi pj)) ∧
    ringCheck p1 p2 [] = none := by
  refine ⟨?_, ?_, ?_, ?_, isPointInPolygon_isSome, ?_, ringCheck_nil p1 p2⟩
  · obtain ⟨b, hb, -⟩ := polygonsLoop_spec p1 p2 polygons hne
    exact ⟨b, hb⟩
  · intro read_json stod filename
    obtain ⟨b, hb, -⟩ := polygonsLoop_spec p1 p2 _ (load_rings_nonempty read_json stod filename)
    exact ⟨b, hb⟩
  · intro ring hring
    have hlen : 0 < ring.length := List.length_pos.mpr hring
    refine ⟨?_, ⟨_, List.getLast?_eq_getLast ring hring⟩, ⟨_, List.head?_eq_head hring⟩, ?_⟩
    · intro i hi
      rw [sizeMinusOne_of_ne_nil hring] at hi
      exact ⟨⟨_, List.getElem?_eq_getElem (show i < ring.length by omega)⟩,
        ⟨_, List.getElem?_eq_getElem (show i + 1 < ring.length by omega)⟩⟩
    · obtain ⟨b, hb, -⟩ := ringCheck_spec p1 p2 ring hring
      exact ⟨b, hb⟩
  · intro p
    have h0 : sizeMinusOne [p] = 0 := rfl
    refine ⟨h0, ?_⟩
    rw [ringEdgeLoop, h0, if_neg (Nat.lt_irrefl 0)]
  · intro point pi pj
    exact ⟨straddles_ne point pi pj, edgeTogglesChecked_eq point pi pj⟩

theorem intersectsAnyPolygon_total_witness :
    (∀ polygon ∈ sampleStore, ∀ ring ∈ polygon.coordinates, ring ≠ []) ∧
    ∃ b, intersectsAnyPolygon sampleStore ⟨5, -5⟩ ⟨5, 15⟩ = some b :=
  ⟨by simp [sampleStore, squareRing],
    (intersectsAnyPolygon_total sampleStore ⟨5, -5⟩ ⟨5, 15⟩
      (by simp [sampleStore, squareRing])).1⟩

end TopoGen
